import Mathlib

/-
Verification of the ephemeral retention and deletion-capture engine of the
delete-msg repository, shallowly embedded from the main source file
(the whatsapp-web.js agent with pairing-code auth).  JavaScript Maps are
modelled as insertion-ordered association lists, timers as explicit
(fire-time, key) pairs, and the event handlers as pure functions from an
environment (event data, caches, failure oracle) to an effect trace plus
the successor state.
-/

set_option maxHeartbeats 1000000

namespace DeleteMsg

/-! ### Constants (source: top of main file) -/

def DELETE_WINDOW_MS : Nat := 68 * 60 * 60 * 1000

def MAX_CACHE_SIZE : Nat := 500

def MESSAGE_CACHE_TTL_MS : Nat := DELETE_WINDOW_MS

def STARTUP_GRACE_MS : Nat := 30 * 1000

def REVOKE_DEDUP_TTL_MS : Nat := 60 * 1000

def MAX_MEDIA_SIZE_MB : Nat := 10

/-! ### JavaScript Map model: insertion-ordered association list.
    `set` of an existing key overwrites in place (position preserved),
    `set` of a new key appends, `delete` removes, iteration order is
    insertion order (so `keys().next().value` is the head). -/

abbrev JMap (V : Type) := List (String × V)

def mapHas {V : Type} (k : String) (m : JMap V) : Bool :=
  m.any (fun e => e.1 = k)

def mapGet {V : Type} (k : String) (m : JMap V) : Option V :=
  (m.find? (fun e => e.1 = k)).map (·.2)

def mapSet {V : Type} (k : String) (v : V) (m : JMap V) : JMap V :=
  if mapHas k m then m.map (fun e => if e.1 = k then (k, v) else e)
  else m ++ [(k, v)]

def mapDelete {V : Type} (k : String) (m : JMap V) : JMap V :=
  m.filter (fun e => ¬ e.1 = k)

def keysOf {V : Type} (m : JMap V) : List String := m.map (·.1)

/-! ### JavaScript string truthiness: the `x || d` idiom over a possibly
    absent, possibly empty string. -/

def jsOr (s : Option String) (d : String) : String :=
  match s with
  | none => d
  | some v => if v = "" then d else v

/-! ### Message snapshot and the Bounded Message Cache (`cacheMessage`). -/

structure Snapshot where
  body : String
  senderName : String
  senderNumber : String
  chatLocation : String
  timestamp : Option Nat
  msgFilePath : Option String
  cachedAt : Nat
deriving Repr, DecidableEq

/-- Source `cacheMessage(msgId, data)`: evict the oldest-inserted entry when the
    map has reached `MAX_CACHE_SIZE`, then `set` the new snapshot with
    `cachedAt` stamped to the current time. -/
def cacheMessage (now : Nat) (msgId : String) (data : Snapshot)
    (cache : JMap Snapshot) : JMap Snapshot :=
  let c :=
    if MAX_CACHE_SIZE ≤ cache.length then
      match cache.head? with
      | some oldest => mapDelete oldest.1 cache
      | none => cache
    else cache
  mapSet msgId { data with cachedAt := now } c

/-- One `cacheMessage` call of a sequence. -/
structure PutCall where
  now : Nat
  id : String
  data : Snapshot
deriving Repr

/-- A sequence of `cacheMessage` calls applied to the initially empty cache. -/
def putAll (ps : List PutCall) : JMap Snapshot :=
  ps.foldl (fun c p => cacheMessage p.now p.id p.data c) []

/-! ### Message cache with its expiry timers (every `put` schedules one
    future removal at `now + MESSAGE_CACHE_TTL_MS`; nothing ever cancels
    these timers). -/

structure CacheState where
  cache : JMap Snapshot
  timers : List (Nat × String)
deriving Repr, DecidableEq

def cachePut (now : Nat) (msgId : String) (data : Snapshot)
    (st : CacheState) : CacheState :=
  { cache := cacheMessage now msgId data st.cache
    timers := st.timers ++ [(now + MESSAGE_CACHE_TTL_MS, msgId)] }

/-- Fire every expiry timer whose scheduled time has been reached: each
    firing timer deletes its key from the cache (deleting an absent key is
    a harmless no-op). -/
def fireDueTimers (now : Nat) (st : CacheState) : CacheState :=
  { cache := st.cache.filter
      (fun e => ¬ st.timers.any (fun tm => tm.1 ≤ now ∧ tm.2 = e.1))
    timers := st.timers.filter (fun tm => now < tm.1) }

/-- Retrieval at wall-clock time `now`, after due timers have fired. -/
def cacheGetAt (now : Nat) (msgId : String) (st : CacheState) :
    Option Snapshot :=
  mapGet msgId (fireDueTimers now st).cache

/-! ### Revoke Deduplicator: `processedRevokes` as a set of ids, each with
    the time at which its scheduled `delete` timer fires. -/

def expireRevokes (now : Nat) (pr : List (String × Nat)) :
    List (String × Nat) :=
  pr.filter (fun e => now < e.2)

/-! ### Artifact Tracker (`mediaTracker`): per-id record with a media slot
    (written by `saveMediaToTemp`) and a transcript slot (written by the
    message-file block of the message handler).  In the source a slot is
    present exactly when its field group (`filePath`/`filename`/`timeout`
    resp. `msgFilePath`/`msgFilename`/`msgFileTimeout`) is defined. -/

structure MediaSlot where
  filePath : String
  filename : String
  timerId : Nat
  mimetype : String
  sentTimestamp : Nat
deriving Repr, DecidableEq

structure TranscriptSlot where
  msgFilePath : String
  msgFilename : String
  timerId : Nat
deriving Repr, DecidableEq

structure Tracked where
  media : Option MediaSlot
  transcript : Option TranscriptSlot
deriving Repr, DecidableEq

/-- Source `mediaTracker.set` in `saveMediaToTemp` (fields `filePath, filename, timeout,
    mimetype, sentTimestamp })` in `saveMediaToTemp`: a fresh object literal
    replaces whatever record was stored for the id (no transcript fields). -/
def attachMediaSlot (id : String) (m : MediaSlot) (tr : JMap Tracked) :
    JMap Tracked :=
  mapSet id { media := some m, transcript := none } tr

/-- The message-file block: create a transcript-only record when the id is
    untracked, otherwise mutate the existing record in place, setting only
    the `msgFilePath`/`msgFilename`/`msgFileTimeout` fields. -/
def attachTranscriptSlot (id : String) (t : TranscriptSlot)
    (tr : JMap Tracked) : JMap Tracked :=
  match mapGet id tr with
  | none => mapSet id { media := none, transcript := some t } tr
  | some ex => mapSet id { ex with transcript := some t } tr

/-! ### String helpers from the source. -/

def chatLocationOf (isGroup : Bool) (name : String) : String :=
  if isGroup then "Group: " ++ name else "Private Chat"

/-- Source `path.basename`. -/
def baseName (p : String) : String :=
  ((p.splitOn "/").getLast?).getD p

/-- Source `(data.senderName || "unknown").replace(/[^a-zA-Z0-9]/g, "_")
    .substring(0, 20)`. -/
def safeNameOf (s : String) : String :=
  String.mk (((s.data.map
    (fun c => if c.isAlphanum then c else Char.ofNat 95))).take 20)

/-- MIME-type-to-extension table of `getExtension`. -/
def extTable : List (String × String) :=
  [("image/jpeg", ".jpg"), ("image/png", ".png"), ("image/webp", ".webp"),
   ("image/gif", ".gif"), ("image/bmp", ".bmp"), ("image/tiff", ".tiff"),
   ("image/heic", ".heic"), ("image/heif", ".heif"),
   ("image/svg+xml", ".svg"), ("video/mp4", ".mp4"), ("video/3gpp", ".3gp"),
   ("video/quicktime", ".mov"), ("video/x-msvideo", ".avi"),
   ("video/webm", ".webm"), ("video/x-matroska", ".mkv"),
   ("audio/ogg; codecs=opus", ".ogg"), ("audio/ogg", ".ogg"),
   ("audio/mpeg", ".mp3"), ("audio/mp4", ".m4a"), ("audio/wav", ".wav"),
   ("audio/aac", ".aac"), ("audio/flac", ".flac"), ("audio/amr", ".amr"),
   ("application/pdf", ".pdf"),
   ("application/vnd.openxmlformats-officedocument.wordprocessingml.document",
     ".docx"),
   ("application/msword", ".doc"),
   ("application/vnd.openxmlformats-officedocument.spreadsheetml.sheet",
     ".xlsx"),
   ("application/vnd.ms-excel", ".xls"),
   ("application/vnd.openxmlformats-officedocument.presentationml.presentation",
     ".pptx"),
   ("application/vnd.ms-powerpoint", ".ppt"), ("text/plain", ".txt"),
   ("text/csv", ".csv"), ("application/zip", ".zip"),
   ("application/x-rar-compressed", ".rar"),
   ("application/x-7z-compressed", ".7z"), ("application/gzip", ".gz"),
   ("application/json", ".json"), ("application/octet-stream", ".bin"),
   ("application/vnd.android.package-archive", ".apk")]

def getExtension (mimetype : String) : String :=
  match extTable.find? (fun e => e.1 = mimetype) with
  | some e => e.2
  | none =>
    if mimetype = "" then "." ++ "bin"
    else
      "." ++ ((((mimetype.splitOn ";").headD "").splitOn "/").getD 1
        "undefined")

/-- Body of an incoming message after the `msg.body || "[<empty>]"`
    substitution. -/
def messageBodyOf (body : Option String) : String :=
  jsOr body "[<empty>]"

/-- The log entry appended to `messages_log.txt` for an incoming message
    (the `Time:` component, an opaque formatted clock string, is
    abstracted away). -/
def msgLogEntry (chatLocation senderName senderNumber messageBody
    mediaRef : String) : String :=
  "Where: " ++ chatLocation ++ "\nWho: " ++ senderName ++ " (" ++
    senderNumber ++ ")\nMessage: " ++ messageBody ++ mediaRef

/-! ### The `message_revoke_everyone` handler, embedded as a pure function.
    External calls that may fail are driven by an explicit oracle; calls
    whose source wraps them in their own try/catch (getChat, getContact,
    sendPushNotification, saveDeletedRecord, readMediaAsBase64, the
    text-only-fallback rename) are modelled as producing an absent result
    or a failed-status effect instead of throwing, while the unguarded
    calls (the two promotion renames and the log append) throw to the
    handler-level catch. -/

/-- The finalized record handed to `saveDeletedRecord`.  Times are kept as
    raw epoch-second values; `getIST` formatting is abstracted away. -/
structure DeletedRecord where
  whereLoc : String
  senderName : String
  senderNumber : String
  originalMessage : String
  sentTime : Option Nat
  mediaFilename : Option String
deriving Repr, DecidableEq

/-- Observable external effects of one handler run, in program order. -/
inductive Eff where
  | clearTimer (id : Nat)
  | renameFile (src dst : String)
  | copyFile (src dst : String)
  | writeTempFile (p : String)
  | appendLog (entry : String)
  | persistRecord (r : DeletedRecord) (ok : Bool)
  | notify (title body : String) (ok : Bool)
  | sendMedia (filename : String)
  | fallbackNotify
deriving Repr, DecidableEq

structure Contact where
  name : Option String
  pushname : Option String
  number : String
deriving Repr, DecidableEq

structure BeforeMsg where
  id : String
  body : Option String
  timestamp : Option Nat
  /-- Result of `beforeMsg.getContact()`: `none` models the call throwing (caught by
      the surrounding try/catch in the handler). -/
  contactResult : Option Contact
deriving Repr, DecidableEq

structure ChatInfo where
  isGroup : Bool
  name : String
deriving Repr, DecidableEq

structure RevokeOracle where
  renameMediaFails : Bool
  renameMsgFails : Bool
  renameTxtFails : Bool
  logAppendFails : Bool
  persistFails : Bool
  notifyFails : Bool
  readMediaFails : Bool
deriving Repr, DecidableEq

structure RevokeEnv where
  now : Nat
  readyTimestamp : Nat
  afterId : String
  beforeMsg : Option BeforeMsg
  /-- Result of `afterMsg.getChat()`: `none` models the call throwing (caught). -/
  chatResult : Option ChatInfo
  cache : JMap Snapshot
  tracker : JMap Tracked
  processedRevokes : List (String × Nat)
  fs : List String
  oracle : RevokeOracle
deriving Repr, DecidableEq

/-- Outcome of the priority-merge field resolution (handler steps 1-4). -/
structure Resolved where
  chatLocation : String
  senderName : String
  senderNumber : String
  originalText : String
  msgId : String
  cached : Option Snapshot
deriving Repr, DecidableEq

/-- Field resolution: after-reference chat, then before-reference contact
    and body, then per-field fallback to the cached snapshot keyed by the
    before-reference id (or the after-reference id when no
    before-reference exists), per-field sentinel checks included. -/
def resolveFields (env : RevokeEnv) : Resolved :=
  let chatLocation :=
    match env.chatResult with
    | some chat => chatLocationOf chat.isGroup chat.name
    | none => "Unknown Chat"
  let senderPair :=
    match env.beforeMsg with
    | some b =>
      match b.contactResult with
      | some ct => (jsOr ct.name (jsOr ct.pushname ct.number), ct.number)
      | none => ("Unknown", "Unknown")
    | none => ("Unknown", "Unknown")
  let originalText :=
    match env.beforeMsg with
    | some b => jsOr b.body "[<empty>]"
    | none => "[Unknown - message not cached]"
  let msgId :=
    match env.beforeMsg with
    | some b => b.id
    | none => env.afterId
  let cached := mapGet msgId env.cache
  match cached with
  | some c =>
    { chatLocation :=
        if chatLocation = "Unknown Chat" then c.chatLocation
        else chatLocation
      senderName :=
        if senderPair.1 = "Unknown" then c.senderName else senderPair.1
      senderNumber :=
        if senderPair.2 = "Unknown" then c.senderNumber else senderPair.2
      originalText :=
        if originalText = "[Unknown - message not cached]" then c.body
        else originalText
      msgId := msgId
      cached := cached }
  | none =>
    { chatLocation := chatLocation
      senderName := senderPair.1
      senderNumber := senderPair.2
      originalText := originalText
      msgId := msgId
      cached := cached }

/-- Mutable state threaded through the try-block of the handler.  `thrown`
    models an exception in flight: every later stage is skipped until the
    handler-level catch. -/
structure BState where
  trace : List Eff
  fs : List String
  tracker : JMap Tracked
  cache : JMap Snapshot
  mediaRef : String
  record : Option DeletedRecord
  thrown : Bool
deriving Repr, DecidableEq

def emit (e : Eff) (s : BState) : BState :=
  { s with trace := s.trace ++ [e] }

def throwJs (s : BState) : BState :=
  { s with thrown := true }

def guardT (f : BState → BState) (s : BState) : BState :=
  if s.thrown then s else f s

def initialBState (env : RevokeEnv) : BState :=
  { trace := [], fs := env.fs, tracker := env.tracker, cache := env.cache
    mediaRef := "", record := none, thrown := false }

/-- Source `if (tracked.filePath) { clearTimeout; if exists rename temp-to-saved;
    mediaRef }`.  `renameSync` is unguarded: a failure throws. -/
def promoteMediaStage (env : RevokeEnv) (r : Resolved) (s : BState) :
    BState :=
  match mapGet r.msgId env.tracker with
  | none => s
  | some tr =>
    match tr.media with
    | none => s
    | some m =>
      let s := emit (.clearTimer m.timerId) s
      if m.filePath ∈ s.fs then
        if env.oracle.renameMediaFails then throwJs s
        else
          let dst := "media/saved/" ++ m.filename
          let s := emit (.renameFile m.filePath dst) s
          { s with fs := dst :: s.fs.filter (fun p => ¬ p = m.filePath)
                   mediaRef := "\nSaved Media: media/saved/" ++ m.filename }
      else s

/-- Source `if (tracked.msgFilePath) { clearTimeout; if exists rename }`. -/
def promoteTranscriptStage (env : RevokeEnv) (r : Resolved) (s : BState) :
    BState :=
  match mapGet r.msgId env.tracker with
  | none => s
  | some tr =>
    match tr.transcript with
    | none => s
    | some t =>
      let s := emit (.clearTimer t.timerId) s
      if t.msgFilePath ∈ s.fs then
        if env.oracle.renameMsgFails then throwJs s
        else
          let dst := "media/saved/" ++ t.msgFilename
          let s := emit (.renameFile t.msgFilePath dst) s
          { s with fs := dst :: s.fs.filter (fun p => ¬ p = t.msgFilePath) }
      else s

/-- Text-only fallback: `if (!tracked && cached && cached.msgFilePath)`
    rename the cached transcript file; this rename sits in its own
    try/catch, so a failure is swallowed. -/
def textOnlyFallbackStage (env : RevokeEnv) (r : Resolved) (s : BState) :
    BState :=
  match mapGet r.msgId env.tracker with
  | some _ => s
  | none =>
    match r.cached with
    | none => s
    | some c =>
      match c.msgFilePath with
      | none => s
      | some p =>
        if p ∈ s.fs then
          if env.oracle.renameTxtFails then s
          else
            let dst := "media/saved/" ++ baseName p
            let s := emit (.renameFile p dst) s
            { s with fs := dst :: s.fs.filter (fun q => ¬ q = p) }
        else s

/-- The deleted-message log entry (the opaque formatted time component is
    abstracted away). -/
def deletedLogEntry (r : Resolved) (mediaRef : String) : String :=
  "DELETED MESSAGE\nWhere: " ++ r.chatLocation ++ "\nWho: " ++
    r.senderName ++ " (" ++ r.senderNumber ++ ")\nOriginal: " ++
    r.originalText ++ mediaRef

/-- Source `fs.appendFileSync("messages_log.txt", logEntry)` — unguarded. -/
def logAppendStage (env : RevokeEnv) (r : Resolved) (s : BState) : BState :=
  if env.oracle.logAppendFails then throwJs s
  else emit (.appendLog (deletedLogEntry r s.mediaRef)) s

/-- Source `beforeMsg && beforeMsg.timestamp ? ... : cached && cached.timestamp
    ? ... : "Unknown"`. -/
def sentTimeOf (env : RevokeEnv) (r : Resolved) : Option Nat :=
  match env.beforeMsg with
  | some b =>
    match b.timestamp with
    | some t => some t
    | none => r.cached.bind (·.timestamp)
  | none => r.cached.bind (·.timestamp)

/-- The DeletedRecord handed to `saveDeletedRecord`; note that
    `mediaFilename` comes straight from the tracker entry
    (`tracked && tracked.filename`), with no check that the underlying
    file still exists. -/
def mkDeletedRecord (env : RevokeEnv) (r : Resolved) : DeletedRecord :=
  { whereLoc := r.chatLocation
    senderName := r.senderName
    senderNumber := r.senderNumber
    originalMessage := r.originalText
    sentTime := sentTimeOf env r
    mediaFilename :=
      (mapGet r.msgId env.tracker).bind (fun tr => tr.media.map (·.filename)) }

/-- The persistence attempt as a trace entry. -/
def persistEffOf (env : RevokeEnv) (r : Resolved) : Eff :=
  .persistRecord (mkDeletedRecord env r) (¬ env.oracle.persistFails)

/-- Call `saveDeletedRecord(...)`: attempted always; its internal try/catch
    swallows a write failure. -/
def persistStage (env : RevokeEnv) (r : Resolved) (s : BState) : BState :=
  let s := emit (persistEffOf env r) s
  { s with record := some (mkDeletedRecord env r) }

/-- The deletion notification attempt as a trace entry. -/
def notifyEffOf (env : RevokeEnv) (r : Resolved) : Eff :=
  .notify ("Deleted by " ++ r.senderName)
    ("Where: " ++ r.chatLocation ++ "\nWho: " ++ r.senderName ++ " (" ++
      r.senderNumber ++ ")\nMessage: " ++ r.originalText)
    (¬ env.oracle.notifyFails)

/-- Call `sendPushNotification(...)`: attempted always; never throws. -/
def notifyStage (env : RevokeEnv) (r : Resolved) (s : BState) : BState :=
  emit (notifyEffOf env r) s

/-- Send the deleted media to the notification sink: prefer the promoted
    copy under `media/saved/`, else the temp path; `readMediaAsBase64`
    returns null on a missing file or a read error. -/
def telegramMediaStage (env : RevokeEnv) (r : Resolved) (s : BState) :
    BState :=
  match mapGet r.msgId env.tracker with
  | none => s
  | some tr =>
    match tr.media with
    | none => s
    | some m =>
      let savedPath := "media/saved/" ++ m.filename
      let tgPath := if savedPath ∈ s.fs then savedPath else m.filePath
      if tgPath ∈ s.fs ∧ ¬ env.oracle.readMediaFails then
        emit (.sendMedia m.filename) s
      else s

/-- Source `if (tracked) mediaTracker.delete(msgId); messageCache.delete(msgId)`. -/
def cleanupStage (env : RevokeEnv) (r : Resolved) (s : BState) : BState :=
  let s :=
    if (mapGet r.msgId env.tracker).isSome then
      { s with tracker := mapDelete r.msgId s.tracker }
    else s
  { s with cache := mapDelete r.msgId s.cache }

/-- The try-block of the revoke handler (steps 1-8). -/
def revokeBody (env : RevokeEnv) : BState :=
  let r := resolveFields env
  let s := initialBState env
  let s := guardT (promoteMediaStage env r) s
  let s := guardT (promoteTranscriptStage env r) s
  let s := guardT (textOnlyFallbackStage env r) s
  let s := guardT (logAppendStage env r) s
  let s := guardT (persistStage env r) s
  let s := guardT (notifyStage env r) s
  let s := guardT (telegramMediaStage env r) s
  guardT (cleanupStage env r) s

structure HResult where
  trace : List Eff
  cache : JMap Snapshot
  tracker : JMap Tracked
  processedRevokes : List (String × Nat)
  fs : List String
  /-- Whether the event survived both gates and reached the try-block. -/
  processed : Bool
deriving Repr, DecidableEq

/-- The whole `message_revoke_everyone` handler: startup-grace gate, then
    dedup gate, then the try-block; an exception from the try-block is
    caught and converted into the guarded fallback notification. -/
def handleRevoke (env : RevokeEnv) : HResult :=
  if (env.now : Int) - (env.readyTimestamp : Int) < (STARTUP_GRACE_MS : Int)
  then
    { trace := [], cache := env.cache, tracker := env.tracker
      processedRevokes := env.processedRevokes, fs := env.fs
      processed := false }
  else
    let pr := expireRevokes env.now env.processedRevokes
    if pr.any (fun e => e.1 = env.afterId) then
      { trace := [], cache := env.cache, tracker := env.tracker
        processedRevokes := pr, fs := env.fs, processed := false }
    else
      let pr := pr ++ [(env.afterId, env.now + REVOKE_DEDUP_TTL_MS)]
      let b := revokeBody env
      { trace := b.trace ++ (if b.thrown then [Eff.fallbackNotify] else [])
        cache := b.cache, tracker := b.tracker, processedRevokes := pr
        fs := b.fs, processed := true }

/-! ### The `message` handler, embedded as a pure function: temp media
    save, view-once capture, log append, transcript-file save with tracker
    update, and the cache write. -/

structure MediaDownload where
  mimetype : String
  sizeBytes : Nat
deriving Repr, DecidableEq

structure MsgEnv where
  idSerialized : String
  idLocal : String
  body : Option String
  hasMedia : Bool
  isViewOnce : Bool
  /-- Result of `msg.downloadMedia()`: `none` models a failed download or a result
      without data. -/
  download : Option MediaDownload
  contact : Contact
  chat : ChatInfo
  timestamp : Nat
  now : Nat
  mediaTimerId : Nat
  msgFileTimerId : Nat
  fs : List String
  tracker : JMap Tracked
  cache : JMap Snapshot
  /-- The try/catch around the message-file write: `true` models
      `fs.writeFileSync` throwing (caught; `msgFilePath` stays null). -/
  msgFileWriteFails : Bool
  /-- Flag for `readMediaAsBase64` in the view-once path failing to read. -/
  readViewOnceFails : Bool
deriving Repr, DecidableEq

/-- Source `contact.name || contact.pushname || contact.number`. -/
def msgSenderName (env : MsgEnv) : String :=
  jsOr env.contact.name (jsOr env.contact.pushname env.contact.number)

/-- The temp media filename `{epochMillis}_{messageLocalId}{ext}`. -/
def tempMediaFilename (env : MsgEnv) (dl : MediaDownload) : String :=
  toString env.now ++ "_" ++ env.idLocal ++ getExtension dl.mimetype

/-- The tracker media slot written by `saveMediaToTemp`. -/
def mediaSlotOf (env : MsgEnv) (dl : MediaDownload) : MediaSlot :=
  { filePath := "media/temp/" ++ tempMediaFilename env dl
    filename := tempMediaFilename env dl
    timerId := env.mediaTimerId
    mimetype := dl.mimetype
    sentTimestamp := env.timestamp }

/-- The transcript filename `{epochMillis}_{safeName}_{localId}.txt`. -/
def msgTxtFilename (env : MsgEnv) (senderName : String) : String :=
  toString env.now ++ "_" ++ safeNameOf senderName ++ "_" ++
    env.idLocal ++ ".txt"

/-- The tracker transcript slot written by the message-file block. -/
def transcriptSlotOf (env : MsgEnv) (senderName : String) : TranscriptSlot :=
  { msgFilePath := "media/temp/" ++ msgTxtFilename env senderName
    msgFilename := msgTxtFilename env senderName
    timerId := env.msgFileTimerId }

/-- Source `saveMediaToTemp`: download, size gate, temp write, tracker `set` of a
    fresh media-only record, self-expiry scheduled (timer handle stored in
    the slot).  Returns the temp filename, or `none` on any bail-out. -/
def saveMediaToTempFn (env : MsgEnv) :
    Option String × List Eff × List String × JMap Tracked :=
  if ¬ env.hasMedia then (none, [], env.fs, env.tracker)
  else
    match env.download with
    | none => (none, [], env.fs, env.tracker)
    | some media =>
      if MAX_MEDIA_SIZE_MB * 1024 * 1024 < media.sizeBytes then
        (none, [], env.fs, env.tracker)
      else
        (some (tempMediaFilename env media),
          [.writeTempFile ("media/temp/" ++ tempMediaFilename env media)],
          ("media/temp/" ++ tempMediaFilename env media) :: env.fs,
          attachMediaSlot env.idSerialized (mediaSlotOf env media)
            env.tracker)

/-- View-once capture: copy (never rename) the tracked temp media into
    permanent storage, notify, and forward the media; the tracker record
    is read with `get` only and never written. -/
def viewOnceStage (env : MsgEnv) (senderName senderNumber chatLocation
    messageBody : String) (s : BState) : BState :=
  if env.isViewOnce ∧ env.hasMedia then
    match mapGet env.idSerialized s.tracker with
    | none => s
    | some tr =>
      let s :=
        match tr.media with
        | some m =>
          if m.filePath ∈ s.fs then
            let dst := "media/saved/" ++ m.filename
            let s := emit (.copyFile m.filePath dst) s
            { s with fs := dst :: s.fs }
          else s
        | none => s
      let s := emit (.notify ("View-Once from " ++ senderName)
        ("Where: " ++ chatLocation ++ "\nWho: " ++ senderName ++ " (" ++
          senderNumber ++ ")\nMessage: " ++
          (if messageBody = "" then "[media]" else messageBody)) true) s
      match tr.media with
      | some m =>
        if m.filePath ∈ s.fs ∧ ¬ env.readViewOnceFails then
          emit (.sendMedia m.filename) s
        else s
      | none => s
  else s

/-- Save the textual transcript of the message under `media/temp` and
    record it in the tracker via the read-modify-write block; on a write
    failure (caught) nothing is written or tracked.  Returns the new state
    and the `msgFilePath` value for the cache snapshot. -/
def transcriptStage (env : MsgEnv) (senderName : String) (s : BState) :
    BState × Option String :=
  if env.msgFileWriteFails then (s, none)
  else
    let p := "media/temp/" ++ msgTxtFilename env senderName
    let s := emit (.writeTempFile p) s
    let s := { s with fs := p :: s.fs }
    let tk := attachTranscriptSlot env.idSerialized
      (transcriptSlotOf env senderName) s.tracker
    let s := { s with tracker := tk }
    (s, some p)

/-- The `mediaRef` string as built by the message handler from the
    `saveMediaToTemp` result. -/
def mediaRefOf (env : MsgEnv) : String :=
  match (saveMediaToTempFn env).1 with
  | some f => "\nMedia: media/temp/" ++ f
  | none => ""

/-- The whole `message` handler. -/
def handleMessage (env : MsgEnv) : BState :=
  let senderName := msgSenderName env
  let senderNumber := env.contact.number
  let messageBody := messageBodyOf env.body
  let chatLocation := chatLocationOf env.chat.isGroup env.chat.name
  let saved := saveMediaToTempFn env
  let mediaRef := mediaRefOf env
  let s : BState :=
    { trace := saved.2.1, fs := saved.2.2.1, tracker := saved.2.2.2
      cache := env.cache, mediaRef := mediaRef, record := none
      thrown := false }
  let s := viewOnceStage env senderName senderNumber chatLocation
    messageBody s
  let s := emit (.appendLog
    (msgLogEntry chatLocation senderName senderNumber messageBody
      mediaRef)) s
  let st := transcriptStage env senderName s
  let s := st.1
  let snap : Snapshot :=
    { body := messageBody, senderName := senderName
      senderNumber := senderNumber, chatLocation := chatLocation
      timestamp := some env.timestamp, msgFilePath := st.2
      cachedAt := 0 }
  { s with cache := cacheMessage env.now env.idSerialized snap s.cache }

/-! ### Helper predicates and per-stage structural lemmas. -/

/-- Both handler gates let the event through: outside the startup grace
    window and not deduplicated. -/
def gatesPass (env : RevokeEnv) : Prop :=
  ¬ ((env.now : Int) - (env.readyTimestamp : Int) < (STARTUP_GRACE_MS : Int))
    ∧ (expireRevokes env.now env.processedRevokes).any
        (fun e => e.1 = env.afterId) = false

instance (env : RevokeEnv) : Decidable (gatesPass env) := by
  unfold gatesPass
  infer_instance

/-- An artifact file operation: a rename or a copy. -/
def isArtifactFileOp : Eff → Bool
  | .renameFile _ _ => true
  | .copyFile _ _ => true
  | _ => false

def isPersistEff : Eff → Bool
  | .persistRecord _ _ => true
  | _ => false

def isNotifyEff : Eff → Bool
  | .notify _ _ _ => true
  | _ => false

/-- Invariants of every try-block stage except `persistStage` and
    `cleanupStage`: the trace only grows (the old trace stays as its
    initial segment), and the tracker, cache and record fields pass
    through untouched. -/
def StagePreserves (f : BState → BState) : Prop :=
  ∀ s : BState, (f s).trace = s.trace ++ (f s).trace.drop s.trace.length
    ∧ (f s).tracker = s.tracker ∧ (f s).cache = s.cache
    ∧ (f s).record = s.record

/-! ### Concrete sample inputs for witnesses and counterexamples. -/

def oracleOk : RevokeOracle :=
  { renameMediaFails := false, renameMsgFails := false
    renameTxtFails := false, logAppendFails := false
    persistFails := false, notifyFails := false, readMediaFails := false }

def snapA : Snapshot :=
  { body := "hello", senderName := "Alice", senderNumber := "911"
    chatLocation := "Group: Friends", timestamp := some 100
    msgFilePath := none, cachedAt := 0 }

def envA : RevokeEnv :=
  { now := 1700000000000, readyTimestamp := 1699999000000, afterId := "m1"
    beforeMsg := none, chatResult := none
    cache := [("m1", snapA)], tracker := [], processedRevokes := []
    fs := [], oracle := oracleOk }

/-- A revoke arriving before the ready event has ever fired:
    `readyTimestamp` still holds its initial value 0. -/
def envPreReady : RevokeEnv := { envA with readyTimestamp := 0 }

/-- A revoke arriving 10 seconds after the ready event. -/
def envInGrace : RevokeEnv := { envA with now := 1699999010000 }

def mSlotA : MediaSlot :=
  { filePath := "media/temp/1_x.jpg", filename := "1_x.jpg", timerId := 7
    mimetype := "image/jpeg", sentTimestamp := 5 }

def tSlotA : TranscriptSlot :=
  { msgFilePath := "media/temp/1_A_x.txt", msgFilename := "1_A_x.txt"
    timerId := 11 }

/-- A tracked media artifact whose temp file is gone (`fs` is empty). -/
def envReaped : RevokeEnv :=
  { envA with
      tracker := [("m1", { media := some mSlotA, transcript := none })] }

def envLogFail : RevokeEnv :=
  { envA with oracle := { oracleOk with logAppendFails := true } }

def envNotifyFail : RevokeEnv :=
  { envA with oracle := { oracleOk with notifyFails := true } }

/-- Neither cache nor tracker holds the id: the second-promotion state. -/
def envEmptyMiss : RevokeEnv := { envA with cache := [], tracker := [] }

def contactCarl : Contact :=
  { name := some "Carl", pushname := none, number := "933" }

def beforeEmptyBody : BeforeMsg :=
  { id := "m1", body := some "", timestamp := some 44
    contactResult := some contactCarl }

def envBeforeEmpty : RevokeEnv :=
  { envA with beforeMsg := some beforeEmptyBody }

def dlA : MediaDownload := { mimetype := "image/jpeg", sizeBytes := 1000 }

def msgEnvA : MsgEnv :=
  { idSerialized := "m2", idLocal := "x2", body := some "", hasMedia := true
    isViewOnce := true, download := some dlA
    contact := { name := some "Bob", pushname := none, number := "922" }
    chat := { isGroup := true, name := "G" }, timestamp := 50
    now := 999, mediaTimerId := 3, msgFileTimerId := 4, fs := []
    tracker := [], cache := [], msgFileWriteFails := false
    readViewOnceFails := false }

/-- A plain text message with an empty body. -/
def msgEnvText : MsgEnv :=
  { msgEnvA with
      hasMedia := false
      isViewOnce := false
      download := none }

def putA : PutCall := { now := 1, id := "a", data := snapA }

def putB : PutCall := { now := 2, id := "b", data := snapA }

/-- One revoke delivery at wall-clock time `t` against dedup state `pr`. -/
def runRevokeAt (e : RevokeEnv) (t : Nat) (pr : List (String × Nat)) :
    HResult :=
  handleRevoke { e with now := t, processedRevokes := pr }

def trTranscriptOnly : JMap Tracked :=
  [("m", { media := none, transcript := some tSlotA })]

/-! ### Proofs. -/

/-! #### Map lemmas -/

theorem mapGet_cons {V : Type} (k : String) (e : String × V) (t : JMap V) :
    mapGet k (e :: t) = if e.1 = k then some e.2 else mapGet k t := by
  by_cases h : e.1 = k <;> simp [mapGet, List.find?, h]

theorem mapSet_cons {V : Type} (k : String) (v : V) (e : String × V)
    (t : JMap V) :
    mapSet k v (e :: t) =
      if e.1 = k then (k, v) :: t.map (fun x => if x.1 = k then (k, v) else x)
      else e :: mapSet k v t := by
  by_cases h : e.1 = k
  · simp [mapSet, mapHas, h]
  · have hstep : mapHas k (e :: t) = mapHas k t := by simp [mapHas, h]
    by_cases hh : mapHas k t
    · simp [mapSet, hstep, hh, h]
    · simp [mapSet, hstep, hh, h]

theorem mapDelete_cons {V : Type} (k : String) (e : String × V) (t : JMap V) :
    mapDelete k (e :: t) =
      if e.1 = k then mapDelete k t else e :: mapDelete k t := by
  by_cases h : e.1 = k <;> simp [mapDelete, h]

theorem mapGet_mapSet_self {V : Type} (k : String) (v : V) (m : JMap V) :
    mapGet k (mapSet k v m) = some v := by
  induction m with
  | nil => simp [mapSet, mapHas, mapGet, List.find?]
  | cons e t ih =>
    rw [mapSet_cons]
    by_cases h : e.1 = k
    · rw [if_pos h, mapGet_cons]
      simp
    · rw [if_neg h, mapGet_cons, if_neg h]
      exact ih

theorem mapGet_mapDelete_self {V : Type} (k : String) (m : JMap V) :
    mapGet k (mapDelete k m) = none := by
  induction m with
  | nil => simp [mapGet, mapDelete]
  | cons e t ih =>
    rw [mapDelete_cons]
    by_cases h : e.1 = k
    · rw [if_pos h]
      exact ih
    · rw [if_neg h, mapGet_cons, if_neg h]
      exact ih

theorem mapGet_mapDelete_ne {V : Type} (k k' : String) (m : JMap V)
    (h : k ≠ k') : mapGet k (mapDelete k' m) = mapGet k m := by
  induction m with
  | nil => simp [mapGet, mapDelete]
  | cons e t ih =>
    rw [mapDelete_cons]
    by_cases he : e.1 = k'
    · have hk : ¬ e.1 = k := by
        rw [he]
        exact fun hc => h hc.symm
      rw [if_pos he, mapGet_cons, if_neg hk]
      exact ih
    · rw [if_neg he, mapGet_cons, mapGet_cons]
      by_cases hk : e.1 = k
      · rw [if_pos hk, if_pos hk]
      · rw [if_neg hk, if_neg hk]
        exact ih

theorem keysOf_mapSet_of_has {V : Type} (k : String) (v : V) (m : JMap V)
    (h : mapHas k m = true) : keysOf (mapSet k v m) = keysOf m := by
  unfold mapSet
  rw [if_pos h]
  unfold keysOf
  rw [List.map_map]
  apply List.map_congr_left
  intro e _
  by_cases he : e.1 = k
  · simp [he]
  · simp [he]

theorem keysOf_mapSet_of_not_has {V : Type} (k : String) (v : V) (m : JMap V)
    (h : ¬ mapHas k m = true) : keysOf (mapSet k v m) = keysOf m ++ [k] := by
  unfold mapSet
  rw [if_neg h]
  simp [keysOf]

theorem mapHas_iff_mem_keys {V : Type} (k : String) (m : JMap V) :
    mapHas k m = true ↔ k ∈ keysOf m := by
  constructor
  · intro h
    simp only [mapHas, List.any_eq_true, decide_eq_true_eq] at h
    obtain ⟨e, he, hk⟩ := h
    exact hk ▸ List.mem_map_of_mem (·.1) he
  · intro h
    simp only [keysOf, List.mem_map] at h
    obtain ⟨e, he, hk⟩ := h
    simp only [mapHas, List.any_eq_true, decide_eq_true_eq]
    exact ⟨e, he, hk⟩

theorem keysOf_mapDelete {V : Type} (k : String) (m : JMap V) :
    keysOf (mapDelete k m) = (keysOf m).filter (fun x => ¬ x = k) := by
  induction m with
  | nil => simp [keysOf, mapDelete]
  | cons e t ih =>
    by_cases h : e.1 = k
    · simpa [keysOf, mapDelete, List.filter, h] using ih
    · simpa [keysOf, mapDelete, List.filter, h] using ih

theorem length_mapSet {V : Type} (k : String) (v : V) (m : JMap V) :
    (mapSet k v m).length = if mapHas k m then m.length else m.length + 1 := by
  unfold mapSet
  split <;> simp

theorem length_mapDelete_le {V : Type} (k : String) (m : JMap V) :
    (mapDelete k m).length ≤ m.length :=
  List.length_filter_le _ m

theorem StagePreserves.mem_trace {f : BState → BState}
    (h : StagePreserves f) (s : BState) {e : Eff} (he : e ∈ s.trace) :
    e ∈ (f s).trace := by
  rw [(h s).1]
  exact List.mem_append_left _ he

theorem stagePreserves_promoteMedia (env : RevokeEnv) (r : Resolved) :
    StagePreserves (promoteMediaStage env r) := by
  intro s
  unfold promoteMediaStage
  simp only [emit, throwJs]
  repeat' split
  all_goals exact ⟨by simp, rfl, rfl, rfl⟩

theorem stagePreserves_promoteTranscript (env : RevokeEnv) (r : Resolved) :
    StagePreserves (promoteTranscriptStage env r) := by
  intro s
  unfold promoteTranscriptStage
  simp only [emit, throwJs]
  repeat' split
  all_goals exact ⟨by simp, rfl, rfl, rfl⟩

theorem stagePreserves_textOnlyFallback (env : RevokeEnv) (r : Resolved) :
    StagePreserves (textOnlyFallbackStage env r) := by
  intro s
  unfold textOnlyFallbackStage
  simp only [emit]
  repeat' split
  all_goals exact ⟨by simp, rfl, rfl, rfl⟩

theorem stagePreserves_logAppend (env : RevokeEnv) (r : Resolved) :
    StagePreserves (logAppendStage env r) := by
  intro s
  unfold logAppendStage
  simp only [emit, throwJs]
  split
  all_goals exact ⟨by simp, rfl, rfl, rfl⟩

theorem stagePreserves_notify (env : RevokeEnv) (r : Resolved) :
    StagePreserves (notifyStage env r) := by
  intro s
  refine ⟨?_, rfl, rfl, rfl⟩
  simp [notifyStage, emit]

theorem stagePreserves_telegramMedia (env : RevokeEnv) (r : Resolved) :
    StagePreserves (telegramMediaStage env r) := by
  intro s
  unfold telegramMediaStage
  simp only [emit]
  repeat' split
  all_goals exact ⟨by simp, rfl, rfl, rfl⟩

/-- Stage `persistStage` grows the trace and leaves tracker and cache alone. -/
theorem persistStage_spec (env : RevokeEnv) (r : Resolved) (s : BState) :
    (persistStage env r s).trace = s.trace ++ [persistEffOf env r]
      ∧ (persistStage env r s).tracker = s.tracker
      ∧ (persistStage env r s).cache = s.cache
      ∧ (persistStage env r s).record = some (mkDeletedRecord env r) :=
  ⟨rfl, rfl, rfl, rfl⟩

/-- Stage `cleanupStage` grows the trace not at all and leaves the record. -/
theorem cleanupStage_spec (env : RevokeEnv) (r : Resolved) (s : BState) :
    (cleanupStage env r s).trace = s.trace
      ∧ (cleanupStage env r s).record = s.record
      ∧ (cleanupStage env r s).thrown = s.thrown := by
  unfold cleanupStage
  split <;> exact ⟨rfl, rfl, rfl⟩

theorem guardT_preserves {f : BState → BState} (h : StagePreserves f) :
    StagePreserves (guardT f) := by
  intro s
  unfold guardT
  split
  · exact ⟨by simp, rfl, rfl, rfl⟩
  · exact h s

/-! #### Thrown-flag lemmas: which stages can throw, and under which
    oracle flags. -/

theorem thrown_promoteMediaStage (env : RevokeEnv) (r : Resolved)
    (s : BState) (h : env.oracle.renameMediaFails = false) :
    (promoteMediaStage env r s).thrown = s.thrown := by
  unfold promoteMediaStage
  simp only [emit, throwJs]
  repeat' split
  all_goals simp_all

theorem thrown_promoteTranscriptStage (env : RevokeEnv) (r : Resolved)
    (s : BState) (h : env.oracle.renameMsgFails = false) :
    (promoteTranscriptStage env r s).thrown = s.thrown := by
  unfold promoteTranscriptStage
  simp only [emit, throwJs]
  repeat' split
  all_goals simp_all

theorem thrown_textOnlyFallbackStage (env : RevokeEnv) (r : Resolved)
    (s : BState) : (textOnlyFallbackStage env r s).thrown = s.thrown := by
  unfold textOnlyFallbackStage
  simp only [emit]
  repeat' split
  all_goals rfl

theorem thrown_logAppendStage (env : RevokeEnv) (r : Resolved) (s : BState)
    (h : env.oracle.logAppendFails = false) :
    (logAppendStage env r s).thrown = s.thrown := by
  unfold logAppendStage
  simp [h, emit]

theorem thrown_persistStage (env : RevokeEnv) (r : Resolved) (s : BState) :
    (persistStage env r s).thrown = s.thrown := rfl

theorem thrown_notifyStage (env : RevokeEnv) (r : Resolved) (s : BState) :
    (notifyStage env r s).thrown = s.thrown := rfl

theorem thrown_telegramMediaStage (env : RevokeEnv) (r : Resolved)
    (s : BState) : (telegramMediaStage env r s).thrown = s.thrown := by
  unfold telegramMediaStage
  simp only [emit]
  repeat' split
  all_goals rfl

theorem guardT_thrown_of {f : BState → BState}
    (h : ∀ s, (f s).thrown = s.thrown) (s : BState) :
    (guardT f s).thrown = s.thrown := by
  unfold guardT
  split
  · rfl
  · exact h s

theorem guardT_not_thrown {f : BState → BState} {s : BState}
    (h : s.thrown = false) : guardT f s = f s := by
  unfold guardT
  rw [if_neg (by simp [h])]

/-- With the three unguarded call sites not failing, the try-block never
    raises. -/
theorem revokeBody_not_thrown (env : RevokeEnv)
    (h1 : env.oracle.renameMediaFails = false)
    (h2 : env.oracle.renameMsgFails = false)
    (h3 : env.oracle.logAppendFails = false) :
    (revokeBody env).thrown = false := by
  simp only [revokeBody]
  rw [guardT_thrown_of (fun s => (cleanupStage_spec env (resolveFields env) s).2.2),
    guardT_thrown_of (thrown_telegramMediaStage env (resolveFields env)),
    guardT_thrown_of (thrown_notifyStage env (resolveFields env)),
    guardT_thrown_of (thrown_persistStage env (resolveFields env)),
    guardT_thrown_of (fun s =>
      thrown_logAppendStage env (resolveFields env) s h3),
    guardT_thrown_of (thrown_textOnlyFallbackStage env (resolveFields env)),
    guardT_thrown_of (fun s =>
      thrown_promoteTranscriptStage env (resolveFields env) s h2),
    guardT_thrown_of (fun s =>
      thrown_promoteMediaStage env (resolveFields env) s h1)]
  rfl

/-! #### Projections of `resolveFields` and gate-level unfoldings of
    `handleRevoke`. -/

theorem resolveFields_msgId (env : RevokeEnv) :
    (resolveFields env).msgId =
      match env.beforeMsg with
      | some b => b.id
      | none => env.afterId := by
  simp only [resolveFields]
  repeat' split
  all_goals simp_all

theorem resolveFields_cached (env : RevokeEnv) :
    (resolveFields env).cached =
      mapGet (resolveFields env).msgId env.cache := by
  rw [resolveFields_msgId]
  simp only [resolveFields]
  repeat' split
  all_goals simp_all

theorem handleRevoke_grace_skip (env : RevokeEnv)
    (h : (env.now : Int) - (env.readyTimestamp : Int)
      < (STARTUP_GRACE_MS : Int)) :
    handleRevoke env =
      { trace := [], cache := env.cache, tracker := env.tracker
        processedRevokes := env.processedRevokes, fs := env.fs
        processed := false } := by
  unfold handleRevoke
  rw [if_pos h]

theorem handleRevoke_dedup_skip (env : RevokeEnv)
    (h1 : ¬ (env.now : Int) - (env.readyTimestamp : Int)
      < (STARTUP_GRACE_MS : Int))
    (h2 : (expireRevokes env.now env.processedRevokes).any
      (fun e => e.1 = env.afterId) = true) :
    handleRevoke env =
      { trace := [], cache := env.cache, tracker := env.tracker
        processedRevokes := expireRevokes env.now env.processedRevokes
        fs := env.fs, processed := false } := by
  unfold handleRevoke
  rw [if_neg h1, if_pos h2]

theorem handleRevoke_processed (env : RevokeEnv) (h : gatesPass env) :
    handleRevoke env =
      { trace := (revokeBody env).trace ++
          (if (revokeBody env).thrown then [Eff.fallbackNotify] else [])
        cache := (revokeBody env).cache
        tracker := (revokeBody env).tracker
        processedRevokes := expireRevokes env.now env.processedRevokes ++
          [(env.afterId, env.now + REVOKE_DEDUP_TTL_MS)]
        fs := (revokeBody env).fs, processed := true } := by
  unfold handleRevoke
  rw [if_neg h.1, if_neg (by simp [h.2])]

/-- The record field of the try-block result: absent when an exception cut
    the run short before persistence, otherwise exactly the
    `mkDeletedRecord` of the resolution. -/
theorem record_revokeBody (env : RevokeEnv) :
    (revokeBody env).record = none ∨
      (revokeBody env).record =
        some (mkDeletedRecord env (resolveFields env)) := by
  simp only [revokeBody]
  have hclean : ∀ s : BState,
      (guardT (cleanupStage env (resolveFields env)) s).record = s.record := by
    intro s
    unfold guardT
    split
    · rfl
    · exact (cleanupStage_spec env (resolveFields env) s).2.1
  rw [hclean,
    (guardT_preserves (stagePreserves_telegramMedia env (resolveFields env))
      _).2.2.2,
    (guardT_preserves (stagePreserves_notify env (resolveFields env))
      _).2.2.2]
  have h4 : (guardT (logAppendStage env (resolveFields env))
      (guardT (textOnlyFallbackStage env (resolveFields env))
        (guardT (promoteTranscriptStage env (resolveFields env))
          (guardT (promoteMediaStage env (resolveFields env))
            (initialBState env))))).record = none := by
    rw [(guardT_preserves (stagePreserves_logAppend env (resolveFields env))
        _).2.2.2,
      (guardT_preserves (stagePreserves_textOnlyFallback env
        (resolveFields env)) _).2.2.2,
      (guardT_preserves (stagePreserves_promoteTranscript env
        (resolveFields env)) _).2.2.2,
      (guardT_preserves (stagePreserves_promoteMedia env (resolveFields env))
        _).2.2.2]
    rfl
  generalize hG : (guardT (logAppendStage env (resolveFields env))
      (guardT (textOnlyFallbackStage env (resolveFields env))
        (guardT (promoteTranscriptStage env (resolveFields env))
          (guardT (promoteMediaStage env (resolveFields env))
            (initialBState env))))) = s4 at h4 ⊢
  unfold guardT
  split
  · exact Or.inl h4
  · exact Or.inr (persistStage_spec env (resolveFields env) s4).2.2.2

/-- When the try-block runs to completion, the final cleanup leaves
    neither a tracker entry nor a cache entry for the reconciled id. -/
theorem revokeBody_clears (env : RevokeEnv)
    (h : (revokeBody env).thrown = false) :
    mapGet (resolveFields env).msgId (revokeBody env).tracker = none ∧
      mapGet (resolveFields env).msgId (revokeBody env).cache = none := by
  have hct : ∀ s : BState,
      (guardT (cleanupStage env (resolveFields env)) s).thrown = s.thrown :=
    guardT_thrown_of (fun s => (cleanupStage_spec env (resolveFields env) s).2.2)
  have etr1 : ∀ s : BState,
      (guardT (telegramMediaStage env (resolveFields env)) s).tracker
        = s.tracker :=
    fun s => (guardT_preserves
      (stagePreserves_telegramMedia env (resolveFields env)) s).2.1
  have etr2 : ∀ s : BState,
      (guardT (notifyStage env (resolveFields env)) s).tracker = s.tracker :=
    fun s => (guardT_preserves
      (stagePreserves_notify env (resolveFields env)) s).2.1
  have etr3 : ∀ s : BState,
      (guardT (persistStage env (resolveFields env)) s).tracker
        = s.tracker := by
    intro s
    unfold guardT
    split
    · rfl
    · exact (persistStage_spec env (resolveFields env) s).2.1
  have etr4 : ∀ s : BState,
      (guardT (logAppendStage env (resolveFields env)) s).tracker
        = s.tracker :=
    fun s => (guardT_preserves
      (stagePreserves_logAppend env (resolveFields env)) s).2.1
  have etr5 : ∀ s : BState,
      (guardT (textOnlyFallbackStage env (resolveFields env)) s).tracker
        = s.tracker :=
    fun s => (guardT_preserves
      (stagePreserves_textOnlyFallback env (resolveFields env)) s).2.1
  have etr6 : ∀ s : BState,
      (guardT (promoteTranscriptStage env (resolveFields env)) s).tracker
        = s.tracker :=
    fun s => (guardT_preserves
      (stagePreserves_promoteTranscript env (resolveFields env)) s).2.1
  have etr7 : ∀ s : BState,
      (guardT (promoteMediaStage env (resolveFields env)) s).tracker
        = s.tracker :=
    fun s => (guardT_preserves
      (stagePreserves_promoteMedia env (resolveFields env)) s).2.1
  have eca1 : ∀ s : BState,
      (guardT (telegramMediaStage env (resolveFields env)) s).cache
        = s.cache :=
    fun s => (guardT_preserves
      (stagePreserves_telegramMedia env (resolveFields env)) s).2.2.1
  have eca2 : ∀ s : BState,
      (guardT (notifyStage env (resolveFields env)) s).cache = s.cache :=
    fun s => (guardT_preserves
      (stagePreserves_notify env (resolveFields env)) s).2.2.1
  have eca3 : ∀ s : BState,
      (guardT (persistStage env (resolveFields env)) s).cache = s.cache := by
    intro s
    unfold guardT
    split
    · rfl
    · exact (persistStage_spec env (resolveFields env) s).2.2.1
  have eca4 : ∀ s : BState,
      (guardT (logAppendStage env (resolveFields env)) s).cache = s.cache :=
    fun s => (guardT_preserves
      (stagePreserves_logAppend env (resolveFields env)) s).2.2.1
  have eca5 : ∀ s : BState,
      (guardT (textOnlyFallbackStage env (resolveFields env)) s).cache
        = s.cache :=
    fun s => (guardT_preserves
      (stagePreserves_textOnlyFallback env (resolveFields env)) s).2.2.1
  have eca6 : ∀ s : BState,
      (guardT (promoteTranscriptStage env (resolveFields env)) s).cache
        = s.cache :=
    fun s => (guardT_preserves
      (stagePreserves_promoteTranscript env (resolveFields env)) s).2.2.1
  have eca7 : ∀ s : BState,
      (guardT (promoteMediaStage env (resolveFields env)) s).cache
        = s.cache :=
    fun s => (guardT_preserves
      (stagePreserves_promoteMedia env (resolveFields env)) s).2.2.1
  simp only [revokeBody] at h ⊢
  generalize hG : guardT (telegramMediaStage env (resolveFields env))
      (guardT (notifyStage env (resolveFields env))
        (guardT (persistStage env (resolveFields env))
          (guardT (logAppendStage env (resolveFields env))
            (guardT (textOnlyFallbackStage env (resolveFields env))
              (guardT (promoteTranscriptStage env (resolveFields env))
                (guardT (promoteMediaStage env (resolveFields env))
                  (initialBState env))))))) = s7 at h ⊢
  have h7tr : s7.tracker = env.tracker := by
    rw [← hG, etr1, etr2, etr3, etr4, etr5, etr6, etr7]
    rfl
  have h7ca : s7.cache = env.cache := by
    rw [← hG, eca1, eca2, eca3, eca4, eca5, eca6, eca7]
    rfl
  rw [hct s7] at h
  unfold guardT
  rw [if_neg (by simp [h])]
  unfold cleanupStage
  split
  · exact ⟨mapGet_mapDelete_self _ _, mapGet_mapDelete_self _ _⟩
  · rename_i hnone
    constructor
    · rw [h7tr]
      exact Option.not_isSome_iff_eq_none.mp hnone
    · exact mapGet_mapDelete_self _ _

/-- With the unguarded call sites (the two promotion renames and the log
    append) not failing, the persistence attempt and the notification
    attempt both appear in the trace of the try-block, whatever the
    `persistFails` and `notifyFails` flags say. -/
theorem revokeBody_attempts (env : RevokeEnv)
    (h1 : env.oracle.renameMediaFails = false)
    (h2 : env.oracle.renameMsgFails = false)
    (h3 : env.oracle.logAppendFails = false) :
    persistEffOf env (resolveFields env) ∈ (revokeBody env).trace ∧
      notifyEffOf env (resolveFields env) ∈ (revokeBody env).trace := by
  have h4 : (guardT (logAppendStage env (resolveFields env))
      (guardT (textOnlyFallbackStage env (resolveFields env))
        (guardT (promoteTranscriptStage env (resolveFields env))
          (guardT (promoteMediaStage env (resolveFields env))
            (initialBState env))))).thrown = false := by
    rw [guardT_thrown_of (fun s =>
        thrown_logAppendStage env (resolveFields env) s h3),
      guardT_thrown_of (thrown_textOnlyFallbackStage env (resolveFields env)),
      guardT_thrown_of (fun s =>
        thrown_promoteTranscriptStage env (resolveFields env) s h2),
      guardT_thrown_of (fun s =>
        thrown_promoteMediaStage env (resolveFields env) s h1)]
    rfl
  simp only [revokeBody]
  generalize hG : guardT (logAppendStage env (resolveFields env))
      (guardT (textOnlyFallbackStage env (resolveFields env))
        (guardT (promoteTranscriptStage env (resolveFields env))
          (guardT (promoteMediaStage env (resolveFields env))
            (initialBState env)))) = s4 at h4 ⊢
  have hg5 : guardT (persistStage env (resolveFields env)) s4 =
      persistStage env (resolveFields env) s4 := guardT_not_thrown h4
  have h5t : (guardT (persistStage env (resolveFields env)) s4).thrown
      = false := by
    rw [guardT_thrown_of (thrown_persistStage env (resolveFields env))]
    exact h4
  have hper5 : persistEffOf env (resolveFields env)
      ∈ (guardT (persistStage env (resolveFields env)) s4).trace := by
    rw [hg5, (persistStage_spec env (resolveFields env) s4).1]
    simp
  have hg6 : guardT (notifyStage env (resolveFields env))
      (guardT (persistStage env (resolveFields env)) s4) =
      notifyStage env (resolveFields env)
        (guardT (persistStage env (resolveFields env)) s4) :=
    guardT_not_thrown h5t
  have hper6 : persistEffOf env (resolveFields env)
      ∈ (guardT (notifyStage env (resolveFields env))
          (guardT (persistStage env (resolveFields env)) s4)).trace :=
    (guardT_preserves (stagePreserves_notify env
      (resolveFields env))).mem_trace _ hper5
  have hnot6 : notifyEffOf env (resolveFields env)
      ∈ (guardT (notifyStage env (resolveFields env))
          (guardT (persistStage env (resolveFields env)) s4)).trace := by
    rw [hg6]
    unfold notifyStage emit
    simp
  have hclean : ∀ s : BState,
      (guardT (cleanupStage env (resolveFields env)) s).trace = s.trace := by
    intro s
    unfold guardT
    split
    · rfl
    · exact (cleanupStage_spec env (resolveFields env) s).1
  rw [hclean]
  exact ⟨(guardT_preserves (stagePreserves_telegramMedia env
      (resolveFields env))).mem_trace _ hper6,
    (guardT_preserves (stagePreserves_telegramMedia env
      (resolveFields env))).mem_trace _ hnot6⟩

/-! #### Skip lemmas: stages are no-ops when their data is absent. -/

theorem guardT_of_id {f : BState → BState} (h : ∀ s, f s = s) (s : BState) :
    guardT f s = s := by
  unfold guardT
  split
  · rfl
  · exact h s

theorem guardT_thrown_skip {f : BState → BState} {s : BState}
    (h : s.thrown = true) : guardT f s = s := by
  unfold guardT
  rw [if_pos h]

theorem promoteMediaStage_skip (env : RevokeEnv) (r : Resolved) (s : BState)
    (h : mapGet r.msgId env.tracker = none) :
    promoteMediaStage env r s = s := by
  unfold promoteMediaStage
  rw [h]

theorem promoteTranscriptStage_skip (env : RevokeEnv) (r : Resolved)
    (s : BState) (h : mapGet r.msgId env.tracker = none) :
    promoteTranscriptStage env r s = s := by
  unfold promoteTranscriptStage
  rw [h]

theorem textOnlyFallbackStage_skip (env : RevokeEnv) (r : Resolved)
    (s : BState) (h : mapGet r.msgId env.tracker = none)
    (hc : r.cached = none) : textOnlyFallbackStage env r s = s := by
  unfold textOnlyFallbackStage
  rw [h, hc]

theorem telegramMediaStage_skip (env : RevokeEnv) (r : Resolved) (s : BState)
    (h : mapGet r.msgId env.tracker = none) :
    telegramMediaStage env r s = s := by
  unfold telegramMediaStage
  rw [h]

/-- Complete evaluation of the try-block when neither the tracker nor the
    cache holds the reconciled id. -/
theorem revokeBody_miss (env : RevokeEnv)
    (htr : mapGet (resolveFields env).msgId env.tracker = none)
    (hcc : mapGet (resolveFields env).msgId env.cache = none) :
    revokeBody env =
      (if env.oracle.logAppendFails then
        { initialBState env with thrown := true }
      else
        { initialBState env with
            trace := [.appendLog (deletedLogEntry (resolveFields env) ""),
              persistEffOf env (resolveFields env),
              notifyEffOf env (resolveFields env)]
            record := some (mkDeletedRecord env (resolveFields env))
            cache := mapDelete (resolveFields env).msgId env.cache }) := by
  have hcached : (resolveFields env).cached = none := by
    rw [resolveFields_cached]
    exact hcc
  simp only [revokeBody]
  rw [guardT_of_id (fun s => promoteMediaStage_skip env _ s htr),
    guardT_of_id (fun s => promoteTranscriptStage_skip env _ s htr),
    guardT_of_id (fun s => textOnlyFallbackStage_skip env _ s htr hcached)]
  by_cases hlog : env.oracle.logAppendFails
  · have h1 : guardT (logAppendStage env (resolveFields env))
        (initialBState env) = { initialBState env with thrown := true } := by
      rw [guardT_not_thrown rfl]
      unfold logAppendStage
      rw [if_pos hlog]
      rfl
    rw [h1, guardT_thrown_skip rfl, guardT_thrown_skip rfl,
      guardT_thrown_skip rfl, guardT_thrown_skip rfl, if_pos hlog]
  · have h1 : guardT (logAppendStage env (resolveFields env))
        (initialBState env) =
        emit (.appendLog (deletedLogEntry (resolveFields env) ""))
          (initialBState env) := by
      rw [guardT_not_thrown rfl]
      unfold logAppendStage
      rw [if_neg hlog]
      rfl
    rw [h1, if_neg hlog]
    rw [guardT_not_thrown (rfl :
      (emit (.appendLog (deletedLogEntry (resolveFields env) ""))
        (initialBState env)).thrown = false)]
    rw [guardT_not_thrown (rfl : (persistStage env (resolveFields env)
      (emit (.appendLog (deletedLogEntry (resolveFields env) ""))
        (initialBState env))).thrown = false)]
    rw [guardT_of_id (fun s => telegramMediaStage_skip env _ s htr)]
    rw [guardT_not_thrown (rfl : (notifyStage env (resolveFields env)
      (persistStage env (resolveFields env)
        (emit (.appendLog (deletedLogEntry (resolveFields env) ""))
          (initialBState env)))).thrown = false)]
    unfold cleanupStage
    rw [if_neg (by rw [htr]; simp)]
    rfl

/-- When the try-block finishes without an exception, the record it
    produced is exactly the reconciled `mkDeletedRecord`. -/
theorem record_revokeBody_of_not_thrown (env : RevokeEnv)
    (h : (revokeBody env).thrown = false) :
    (revokeBody env).record =
      some (mkDeletedRecord env (resolveFields env)) := by
  have hthr : (revokeBody env).thrown =
      (guardT (logAppendStage env (resolveFields env))
        (guardT (textOnlyFallbackStage env (resolveFields env))
          (guardT (promoteTranscriptStage env (resolveFields env))
            (guardT (promoteMediaStage env (resolveFields env))
              (initialBState env))))).thrown := by
    simp only [revokeBody]
    rw [guardT_thrown_of (fun s =>
        (cleanupStage_spec env (resolveFields env) s).2.2),
      guardT_thrown_of (thrown_telegramMediaStage env (resolveFields env)),
      guardT_thrown_of (thrown_notifyStage env (resolveFields env)),
      guardT_thrown_of (thrown_persistStage env (resolveFields env))]
  rw [hthr] at h
  simp only [revokeBody]
  generalize hG : guardT (logAppendStage env (resolveFields env))
      (guardT (textOnlyFallbackStage env (resolveFields env))
        (guardT (promoteTranscriptStage env (resolveFields env))
          (guardT (promoteMediaStage env (resolveFields env))
            (initialBState env)))) = s4 at h ⊢
  have hclean : ∀ s : BState,
      (guardT (cleanupStage env (resolveFields env)) s).record = s.record := by
    intro s
    unfold guardT
    split
    · rfl
    · exact (cleanupStage_spec env (resolveFields env) s).2.1
  rw [hclean,
    (guardT_preserves (stagePreserves_telegramMedia env (resolveFields env))
      _).2.2.2,
    (guardT_preserves (stagePreserves_notify env (resolveFields env))
      _).2.2.2,
    guardT_not_thrown h]
  exact (persistStage_spec env (resolveFields env) s4).2.2.2

/-- The location string built from a live chat object never collides with
    the "Unknown Chat" sentinel. -/
theorem chatLocationOf_ne_unknown (g : Bool) (name : String) :
    chatLocationOf g name ≠ "Unknown Chat" := by
  unfold chatLocationOf
  split
  · intro h
    have h2 := congrArg String.data h
    rw [String.data_append] at h2
    have h3 := congrArg List.head? h2
    simp at h3
  · decide

/-! #### Bounded-cache lemmas. -/

theorem length_mapSet_le {V : Type} (k : String) (v : V) (m : JMap V) :
    (mapSet k v m).length ≤ m.length + 1 := by
  rw [length_mapSet]
  split <;> omega

theorem mapDelete_of_not_mem {V : Type} (k : String) (m : JMap V)
    (h : k ∉ keysOf m) : mapDelete k m = m := by
  unfold mapDelete
  apply List.filter_eq_self.mpr
  intro a ha
  have hne : a.1 ≠ k := fun he => h (he ▸ List.mem_map_of_mem (·.1) ha)
  simp [hne]

theorem length_cacheMessage_le (now : Nat) (msgId : String) (data : Snapshot)
    (cache : JMap Snapshot) (h : cache.length ≤ MAX_CACHE_SIZE) :
    (cacheMessage now msgId data cache).length ≤ MAX_CACHE_SIZE := by
  unfold cacheMessage
  by_cases hf : MAX_CACHE_SIZE ≤ cache.length
  · rw [if_pos hf]
    rcases cache with _ | ⟨e, t⟩
    · simp [MAX_CACHE_SIZE] at hf
    · simp only [List.head?]
      calc (mapSet msgId { data with cachedAt := now }
            (mapDelete e.1 (e :: t))).length
          ≤ (mapDelete e.1 (e :: t)).length + 1 := length_mapSet_le _ _ _
        _ ≤ t.length + 1 := by
            rw [mapDelete_cons, if_pos rfl]
            exact Nat.add_le_add_right (length_mapDelete_le _ _) 1
        _ = (e :: t).length := rfl
        _ ≤ MAX_CACHE_SIZE := h
  · rw [if_neg hf]
    show (mapSet msgId { data with cachedAt := now } cache).length
      ≤ MAX_CACHE_SIZE
    calc (mapSet msgId { data with cachedAt := now } cache).length
        ≤ cache.length + 1 := length_mapSet_le _ _ _
      _ ≤ MAX_CACHE_SIZE := by omega

theorem putAll_length_le (ps : List PutCall) :
    (putAll ps).length ≤ MAX_CACHE_SIZE := by
  suffices h : ∀ c : JMap Snapshot, c.length ≤ MAX_CACHE_SIZE →
      (ps.foldl (fun c p => cacheMessage p.now p.id p.data c) c).length
        ≤ MAX_CACHE_SIZE by
    exact h [] (by simp [MAX_CACHE_SIZE])
  induction ps with
  | nil => exact fun c h => h
  | cons p ps ih =>
    intro c h
    exact ih _ (length_cacheMessage_le _ _ _ _ h)

theorem putAll_keys (ps : List PutCall)
    (hnd : (ps.map PutCall.id).Nodup) :
    keysOf (putAll ps) =
      (ps.map PutCall.id).drop (ps.length - MAX_CACHE_SIZE) := by
  induction ps using List.reverseRecOn with
  | nil => simp [putAll, keysOf]
  | append_singleton ps p ih =>
    rw [List.map_append, List.nodup_append] at hnd
    obtain ⟨hnd', _, hdisj⟩ := hnd
    have hid : p.id ∉ ps.map PutCall.id := by
      intro hmem
      exact hdisj hmem (by simp)
    have hstep : putAll (ps ++ [p]) =
        cacheMessage p.now p.id p.data (putAll ps) := by
      unfold putAll
      rw [List.foldl_append]
      rfl
    have hkeys := ih hnd'
    have hlenkeys : (keysOf (putAll ps)).length = (putAll ps).length := by
      simp [keysOf]
    have hclen : (putAll ps).length =
        ps.length - (ps.length - MAX_CACHE_SIZE) := by
      rw [← hlenkeys, hkeys]
      simp
    rw [hstep]
    by_cases hn : ps.length < MAX_CACHE_SIZE
    · have h0 : ps.length - MAX_CACHE_SIZE = 0 := by omega
      have hkc : keysOf (putAll ps) = ps.map PutCall.id := by
        rw [hkeys, h0, List.drop_zero]
      have hlt : (putAll ps).length < MAX_CACHE_SIZE := by omega
      unfold cacheMessage
      rw [if_neg (by omega)]
      have hhas : ¬ mapHas p.id (putAll ps) = true := by
        rw [mapHas_iff_mem_keys, hkc]
        exact hid
      rw [keysOf_mapSet_of_not_has _ _ _ hhas, hkc]
      have h0' : (ps ++ [p]).length - MAX_CACHE_SIZE = 0 := by
        simp only [List.length_append, List.length_cons, List.length_nil]
        omega
      rw [List.map_append, h0', List.drop_zero]
      rfl
    · push_neg at hn
      have hclen500 : (putAll ps).length = MAX_CACHE_SIZE := by omega
      obtain ⟨e, t, het⟩ : ∃ e t, putAll ps = e :: t := by
        rcases hpp : putAll ps with _ | ⟨e, t⟩
        · rw [hpp] at hclen500
          simp [MAX_CACHE_SIZE] at hclen500
        · exact ⟨e, t, rfl⟩
      have hknodup : (keysOf (putAll ps)).Nodup := by
        rw [hkeys]
        exact (List.drop_sublist _ _).nodup hnd'
      have hket : keysOf (putAll ps) = e.1 :: keysOf t := by
        rw [het]
        rfl
      have hhead : e.1 ∉ keysOf t := by
        rw [hket] at hknodup
        exact (List.nodup_cons.mp hknodup).1
      have hsub : ∀ x, x ∈ keysOf (putAll ps) → x ∈ ps.map PutCall.id := by
        intro x hx
        rw [hkeys] at hx
        exact List.mem_of_mem_drop hx
      have hpid_t : p.id ∉ keysOf t := by
        intro hmem
        exact hid (hsub p.id (by rw [hket]; exact List.mem_cons_of_mem _ hmem))
      unfold cacheMessage
      rw [if_pos (by omega), het]
      simp only [List.head?]
      rw [mapDelete_cons, if_pos rfl,
        mapDelete_of_not_mem e.1 t (by
          intro hmem
          have : e.1 ∈ keysOf t := hmem
          exact hhead this)]
      have hhas : ¬ mapHas p.id t = true := by
        rw [mapHas_iff_mem_keys]
        exact hpid_t
      rw [keysOf_mapSet_of_not_has _ _ _ hhas]
      have hT : keysOf t = (ps.map PutCall.id).drop
          ((ps.length - MAX_CACHE_SIZE) + 1) := by
        rw [← List.tail_drop, ← hkeys, hket]
        rfl
      rw [hT]
      have hlen1 : (ps ++ [p]).length - MAX_CACHE_SIZE =
          (ps.length - MAX_CACHE_SIZE) + 1 := by
        simp only [List.length_append, List.length_cons, List.length_nil]
        omega
      have hM : 1 ≤ MAX_CACHE_SIZE := by decide
      have hle : (ps.length - MAX_CACHE_SIZE) + 1 ≤
          (ps.map PutCall.id).length := by
        simp only [List.length_map]
        omega
      rw [List.map_append, hlen1, List.drop_append_of_le_length hle]
      simp

/-! #### Message-handler lemmas. -/

theorem mapGet_cacheMessage_self (now : Nat) (msgId : String)
    (data : Snapshot) (cache : JMap Snapshot) :
    mapGet msgId (cacheMessage now msgId data cache) =
      some { data with cachedAt := now } := by
  unfold cacheMessage
  exact mapGet_mapSet_self _ _ _

theorem transcriptStage_mem_trace (env : MsgEnv) (n : String) (s : BState)
    {e : Eff} (he : e ∈ s.trace) :
    e ∈ (transcriptStage env n s).1.trace := by
  unfold transcriptStage
  split
  · exact he
  · simp only [emit]
    exact List.mem_append_left _ he

theorem handleMessage_cache_body (env : MsgEnv) :
    (mapGet env.idSerialized (handleMessage env).cache).map Snapshot.body =
      some (messageBodyOf env.body) := by
  show (mapGet env.idSerialized (cacheMessage env.now env.idSerialized _
    _)).map Snapshot.body = _
  rw [mapGet_cacheMessage_self]
  rfl

theorem handleMessage_log_mem (env : MsgEnv) :
    Eff.appendLog (msgLogEntry (chatLocationOf env.chat.isGroup
        env.chat.name) (msgSenderName env) env.contact.number
        (messageBodyOf env.body) (mediaRefOf env))
      ∈ (handleMessage env).trace := by
  show _ ∈ (transcriptStage env (msgSenderName env) _).1.trace
  apply transcriptStage_mem_trace
  simp only [emit]
  exact List.mem_append_right _ (by simp)

/-! ### Claim theorems. -/

/-- C1: for every revoke event whose before-reference is absent, if the
Bounded Message Cache holds a snapshot keyed by the after-reference id,
the Deletion Reconciler resolves sender name, sender number, original
body and chat location from that cached snapshot, each field
individually and only where still unresolved — the chat location comes
from the live after-reference chat when that lookup succeeds and from
the snapshot when it fails — rather than reporting them as Unknown. -/
theorem c1_reconciler_cache_fallback (env : RevokeEnv) (c : Snapshot)
    (hb : env.beforeMsg = none)
    (hc : mapGet env.afterId env.cache = some c) :
    (resolveFields env).senderName = c.senderName ∧
      (resolveFields env).senderNumber = c.senderNumber ∧
      (resolveFields env).originalText = c.body ∧
      (resolveFields env).chatLocation =
        (match env.chatResult with
          | some chat => chatLocationOf chat.isGroup chat.name
          | none => c.chatLocation) := by
  rcases hcr : env.chatResult with _ | chat
  · simp [resolveFields, hb, hc, hcr]
  · simp [resolveFields, hb, hc, hcr,
      chatLocationOf_ne_unknown chat.isGroup chat.name]

theorem c1_reconciler_cache_fallback_witness :
    (resolveFields envA).senderName = snapA.senderName ∧
      (resolveFields envA).senderNumber = snapA.senderNumber ∧
      (resolveFields envA).originalText = snapA.body ∧
      (resolveFields envA).chatLocation = snapA.chatLocation :=
  c1_reconciler_cache_fallback envA snapA rfl (by decide)

/-- C2: for every sequence of `cacheMessage` calls, the Bounded Message
Cache never holds more than `MAX_CACHE_SIZE` (500) entries; and for
distinct ids the surviving keys are exactly the most recently inserted
ids in insertion order — the last `min(n, 500)` of the sequence — so an
insertion at capacity evicts exactly the single oldest-inserted entry. -/
theorem c2_bounded_cache_evicts_oldest :
    (∀ ps : List PutCall, (putAll ps).length ≤ MAX_CACHE_SIZE) ∧
      (∀ ps : List PutCall, (ps.map PutCall.id).Nodup →
        keysOf (putAll ps) =
          (ps.map PutCall.id).drop (ps.length - MAX_CACHE_SIZE)) :=
  ⟨putAll_length_le, putAll_keys⟩

theorem c2_bounded_cache_evicts_oldest_witness :
    (putAll [putA, putB]).length ≤ MAX_CACHE_SIZE ∧
      keysOf (putAll [putA, putB]) =
        ([putA, putB].map PutCall.id).drop
          ([putA, putB].length - MAX_CACHE_SIZE) :=
  ⟨c2_bounded_cache_evicts_oldest.1 [putA, putB],
    c2_bounded_cache_evicts_oldest.2 [putA, putB] (by decide)⟩

/-- C4 (amended): every revoke event arriving at a time with
`now − readyTimestamp < STARTUP_GRACE_MS` is discarded before
deduplication and reconciliation, with no trace effects and no state
change; since `readyTimestamp` is initialized to 0, a revoke arriving
before the ready event fires is discarded only when `now` itself is
within 30 s of the epoch — in practice a pre-ready revoke is processed,
not discarded. -/
theorem c4_startup_grace_discards (env : RevokeEnv)
    (h : (env.now : Int) - (env.readyTimestamp : Int)
      < (STARTUP_GRACE_MS : Int)) :
    (handleRevoke env).trace = [] ∧
      (handleRevoke env).processed = false ∧
      (handleRevoke env).cache = env.cache ∧
      (handleRevoke env).tracker = env.tracker ∧
      (handleRevoke env).processedRevokes = env.processedRevokes ∧
      (handleRevoke env).fs = env.fs := by
  rw [handleRevoke_grace_skip env h]
  exact ⟨rfl, rfl, rfl, rfl, rfl, rfl⟩

theorem c4_startup_grace_discards_witness :
    (handleRevoke envInGrace).trace = [] ∧
      (handleRevoke envInGrace).processed = false ∧
      (handleRevoke envInGrace).cache = envInGrace.cache ∧
      (handleRevoke envInGrace).tracker = envInGrace.tracker ∧
      (handleRevoke envInGrace).processedRevokes =
        envInGrace.processedRevokes ∧
      (handleRevoke envInGrace).fs = envInGrace.fs :=
  c4_startup_grace_discards envInGrace (by decide)

/-- C4 counterexample: a revoke event arriving while `readyTimestamp` is
still 0 — that is, before `markReady()` has fired at all — is NOT
discarded: it is processed and produces a notification, refuting the
claim that every revoke before `markReady() + grace` is suppressed. -/
theorem c4_counterexample_pre_ready_processed :
    envPreReady.readyTimestamp = 0 ∧
      (handleRevoke envPreReady).processed = true ∧
      (handleRevoke envPreReady).trace.any isNotifyEff = true := by
  decide

/-- C9: an empty incoming body is replaced by the marker string
everywhere: the cached snapshot body, the message log entry, the
reconciled originalText when a before-reference with an empty body is
present, and the persisted DeletedRecord; the body substitution never
yields the empty string. -/
theorem c9_empty_body_marker :
    (∀ b : Option String, messageBodyOf b ≠ "") ∧
      (∀ env : MsgEnv, env.body = some "" →
        (mapGet env.idSerialized (handleMessage env).cache).map
            Snapshot.body = some "[<empty>]" ∧
          Eff.appendLog (msgLogEntry
              (chatLocationOf env.chat.isGroup env.chat.name)
              (msgSenderName env) env.contact.number "[<empty>]"
              (mediaRefOf env)) ∈ (handleMessage env).trace) ∧
      (∀ env : RevokeEnv, ∀ b : BeforeMsg, env.beforeMsg = some b →
        b.body = some "" →
        (resolveFields env).originalText = "[<empty>]" ∧
          (∀ rc, (revokeBody env).record = some rc →
            rc.originalMessage = "[<empty>]")) := by
  refine ⟨?_, ?_, ?_⟩
  · intro b
    rcases b with _ | v
    · simp [messageBodyOf, jsOr]
    · simp only [messageBodyOf, jsOr]
      split
      · decide
      · assumption
  · intro env he
    have hbody : messageBodyOf env.body = "[<empty>]" := by
      rw [he]
      rfl
    refine ⟨?_, ?_⟩
    · rw [handleMessage_cache_body, hbody]
    · have := handleMessage_log_mem env
      rw [hbody] at this
      exact this
  · intro env b hb he
    have htext : (resolveFields env).originalText = "[<empty>]" := by
      rcases hcr : mapGet b.id env.cache with _ | c
      · simp [resolveFields, hb, he, hcr, jsOr]
      · simp [resolveFields, hb, he, hcr, jsOr]
    refine ⟨htext, ?_⟩
    intro rc hrc
    rcases record_revokeBody env with hnone | hsome
    · rw [hnone] at hrc
      cases hrc
    · rw [hsome] at hrc
      cases hrc
      show (resolveFields env).originalText = "[<empty>]"
      exact htext

theorem c9_empty_body_marker_witness :
    messageBodyOf (some "hello") ≠ "" ∧
      (mapGet msgEnvText.idSerialized (handleMessage msgEnvText).cache).map
          Snapshot.body = some "[<empty>]" ∧
      (resolveFields envBeforeEmpty).originalText = "[<empty>]" :=
  ⟨c9_empty_body_marker.1 (some "hello"),
    (c9_empty_body_marker.2.1 msgEnvText rfl).1,
    (c9_empty_body_marker.2.2 envBeforeEmpty beforeEmptyBody rfl rfl).1⟩

/-- C10: a second `cacheMessage` for the same id does not cancel the
expiry timer of the first: both timers stay pending, each deletes the id
when it fires, and so the entry written by the second put is already
unretrievable at every time from the first put's expiry onward — before
the second put's own retention window has elapsed. -/
theorem c10_stacked_expiry_timers (id : String) (d0 d1 : Snapshot)
    (t0 t1 : Nat) (h01 : t0 < t1) :
    (cachePut t1 id d1 (cachePut t0 id d0 ⟨[], []⟩)).timers =
        [(t0 + MESSAGE_CACHE_TTL_MS, id), (t1 + MESSAGE_CACHE_TTL_MS, id)] ∧
      (∀ t, t < t0 + MESSAGE_CACHE_TTL_MS →
        cacheGetAt t id (cachePut t1 id d1 (cachePut t0 id d0 ⟨[], []⟩)) =
          some { d1 with cachedAt := t1 }) ∧
      (∀ t, t0 + MESSAGE_CACHE_TTL_MS ≤ t →
        cacheGetAt t id (cachePut t1 id d1 (cachePut t0 id d0 ⟨[], []⟩)) =
          none) ∧
      t0 + MESSAGE_CACHE_TTL_MS < t1 + MESSAGE_CACHE_TTL_MS := by
  have hst : cachePut t1 id d1 (cachePut t0 id d0 ⟨[], []⟩) =
      ⟨[(id, { d1 with cachedAt := t1 })],
        [(t0 + MESSAGE_CACHE_TTL_MS, id), (t1 + MESSAGE_CACHE_TTL_MS, id)]⟩
      := by
    simp [cachePut, cacheMessage, mapSet, mapHas, mapDelete, MAX_CACHE_SIZE]
  rw [hst]
  refine ⟨rfl, ?_, ?_, by omega⟩
  · intro t ht
    have h2 : ¬ (t1 + MESSAGE_CACHE_TTL_MS ≤ t) := by omega
    have h1 : ¬ (t0 + MESSAGE_CACHE_TTL_MS ≤ t) := by omega
    simp [cacheGetAt, fireDueTimers, mapGet, List.find?, h1, h2]
  · intro t ht
    simp [cacheGetAt, fireDueTimers, mapGet, List.find?, ht]

theorem c10_stacked_expiry_timers_witness :
    (cachePut 6 "a" snapA (cachePut 5 "a" snapA ⟨[], []⟩)).timers =
        [(5 + MESSAGE_CACHE_TTL_MS, "a"), (6 + MESSAGE_CACHE_TTL_MS, "a")] ∧
      cacheGetAt (5 + MESSAGE_CACHE_TTL_MS) "a"
        (cachePut 6 "a" snapA (cachePut 5 "a" snapA ⟨[], []⟩)) = none :=
  ⟨(c10_stacked_expiry_timers "a" snapA snapA 5 6 (by decide)).1,
    (c10_stacked_expiry_timers "a" snapA snapA 5 6 (by decide)).2.2.1
      (5 + MESSAGE_CACHE_TTL_MS) (le_refl _)⟩

/-- C3: within one guard window, the revoke deduplicator admits exactly
one delivery per id: the first revoke at `t0` is processed, a duplicate
at any `t1` inside the dedup TTL is silently dropped — empty trace, no
state change — and a new revoke at any `t2` at or past the TTL expiry is
admitted again. -/
theorem c3_dedup_exactly_once (e : RevokeEnv) (t0 t1 t2 : Nat)
    (hg : e.readyTimestamp + STARTUP_GRACE_MS ≤ t0)
    (h01 : t0 ≤ t1) (h1 : t1 < t0 + REVOKE_DEDUP_TTL_MS)
    (h2 : t0 + REVOKE_DEDUP_TTL_MS ≤ t2) :
    (runRevokeAt e t0 []).processed = true ∧
      (runRevokeAt e t1 (runRevokeAt e t0 []).processedRevokes).processed
          = false ∧
      (runRevokeAt e t1 (runRevokeAt e t0 []).processedRevokes).trace = [] ∧
      (runRevokeAt e t1 (runRevokeAt e t0 []).processedRevokes).cache
          = e.cache ∧
      (runRevokeAt e t1 (runRevokeAt e t0 []).processedRevokes).tracker
          = e.tracker ∧
      (runRevokeAt e t2 (runRevokeAt e t1
          (runRevokeAt e t0 []).processedRevokes).processedRevokes).processed
          = true := by
  have hgrace : ∀ t : Nat, e.readyTimestamp + STARTUP_GRACE_MS ≤ t →
      ¬ ((t : Int) - (e.readyTimestamp : Int) < (STARTUP_GRACE_MS : Int)) := by
    intro t ht
    omega
  have hg0 : gatesPass
      { e with now := t0, processedRevokes := ([] : List (String × Nat)) } := by
    exact ⟨hgrace t0 hg, by simp [expireRevokes]⟩
  have hr0 := handleRevoke_processed _ hg0
  have hpr0 : (runRevokeAt e t0 []).processedRevokes =
      [(e.afterId, t0 + REVOKE_DEDUP_TTL_MS)] := by
    unfold runRevokeAt
    rw [hr0]
    rfl
  have hp0 : (runRevokeAt e t0 []).processed = true := by
    unfold runRevokeAt
    rw [hr0]
  rw [hpr0]
  have hexp1 : expireRevokes t1 [(e.afterId, t0 + REVOKE_DEDUP_TTL_MS)] =
      [(e.afterId, t0 + REVOKE_DEDUP_TTL_MS)] := by
    simp [expireRevokes, h1]
  have hdup : (expireRevokes t1
      [(e.afterId, t0 + REVOKE_DEDUP_TTL_MS)]).any
      (fun x => x.1 = e.afterId) = true := by
    rw [hexp1]
    simp
  have hrw1 : runRevokeAt e t1 [(e.afterId, t0 + REVOKE_DEDUP_TTL_MS)] =
      { trace := [], cache := e.cache, tracker := e.tracker
        processedRevokes := [(e.afterId, t0 + REVOKE_DEDUP_TTL_MS)]
        fs := e.fs, processed := false } := by
    unfold runRevokeAt
    rw [handleRevoke_dedup_skip _ (hgrace t1 (by omega)) hdup, hexp1]
  rw [hrw1]
  have hg2 : gatesPass
      { e with
          now := t2
          processedRevokes := [(e.afterId, t0 + REVOKE_DEDUP_TTL_MS)] } := by
    refine ⟨hgrace t2 (by omega), ?_⟩
    have hlt : ¬ (t2 < t0 + REVOKE_DEDUP_TTL_MS) := by omega
    simp [expireRevokes, hlt]
  have hr2 := handleRevoke_processed _ hg2
  have hp2 : (runRevokeAt e t2
      [(e.afterId, t0 + REVOKE_DEDUP_TTL_MS)]).processed = true := by
    unfold runRevokeAt
    rw [hr2]
  exact ⟨hp0, rfl, rfl, rfl, rfl, hp2⟩

theorem c3_dedup_exactly_once_witness :
    (runRevokeAt envA 1700000000000 []).processed = true ∧
      (runRevokeAt envA 1700000001000
          (runRevokeAt envA 1700000000000 []).processedRevokes).processed
          = false ∧
      (runRevokeAt envA 1700000001000
          (runRevokeAt envA 1700000000000 []).processedRevokes).trace = [] ∧
      (runRevokeAt envA 1700000001000
          (runRevokeAt envA 1700000000000 []).processedRevokes).cache
          = envA.cache ∧
      (runRevokeAt envA 1700000001000
          (runRevokeAt envA 1700000000000 []).processedRevokes).tracker
          = envA.tracker ∧
      (runRevokeAt envA 1700000060000
        (HResult.processedRevokes (runRevokeAt envA 1700000001000
          (runRevokeAt envA 1700000000000 []).processedRevokes))).processed
        = true :=
  c3_dedup_exactly_once envA 1700000000000 1700000001000 1700000060000
    (by decide) (by decide) (by decide) (by decide)

/-- C6 (amended): attaching the transcript artifact creates the tracker
record if absent and otherwise sets only the transcript slot, preserving
the media slot unchanged; attaching the media artifact, however,
replaces the whole record with a fresh media-only record, so it
preserves an existing transcript slot only vacuously — slot independence
holds in the media-before-transcript order, which is the order the
message handler performs. -/
theorem c6_attach_slot_semantics (id : String) (tr : JMap Tracked) :
    (∀ ts : TranscriptSlot, mapGet id tr = none →
      mapGet id (attachTranscriptSlot id ts tr) =
        some { media := none, transcript := some ts }) ∧
      (∀ ts ex, mapGet id tr = some ex →
        mapGet id (attachTranscriptSlot id ts tr) =
          some { ex with transcript := some ts }) ∧
      (∀ m : MediaSlot, mapGet id (attachMediaSlot id m tr) =
        some { media := some m, transcript := none }) := by
  refine ⟨?_, ?_, ?_⟩
  · intro ts h
    unfold attachTranscriptSlot
    rw [h]
    exact mapGet_mapSet_self _ _ _
  · intro ts ex h
    unfold attachTranscriptSlot
    rw [h]
    exact mapGet_mapSet_self _ _ _
  · intro m
    exact mapGet_mapSet_self _ _ _

theorem c6_attach_slot_semantics_witness :
    mapGet "m" (attachTranscriptSlot "m" tSlotA
        [("m", { media := some mSlotA, transcript := none })]) =
      some { media := some mSlotA, transcript := some tSlotA } :=
  (c6_attach_slot_semantics "m"
      [("m", { media := some mSlotA, transcript := none })]).2.1
    tSlotA { media := some mSlotA, transcript := none } (by decide)

/-- C6 counterexample: with a transcript-only record already tracked,
attaching the media artifact replaces the whole record — the transcript
slot that the claim says must be preserved comes back empty. -/
theorem c6_counterexample_media_attach_clobbers_transcript :
    (mapGet "m" (attachMediaSlot "m" mSlotA trTranscriptOnly)).map
        Tracked.transcript = some none := by
  decide

/-- C7 (amended): every exception of the reconciliation try-block is
caught by the revoke handler and converted into the guarded fallback
notification appended to the trace, so nothing propagates; the
notification and persistence calls are individually guarded, so with the
unguarded call sites (the promotion renames and the log append) not
failing, both the persistence attempt and the notification attempt
appear in the trace whatever the `notifyFails` and `persistFails` flags
say — but a failure of an unguarded side-effect aborts to the fallback
path (see the counterexample). -/
theorem c7_exceptions_contained :
    (∀ env : RevokeEnv, gatesPass env →
      (handleRevoke env).trace = (revokeBody env).trace ++
        (if (revokeBody env).thrown then [Eff.fallbackNotify] else [])) ∧
      (∀ env : RevokeEnv, gatesPass env →
        env.oracle.renameMediaFails = false →
        env.oracle.renameMsgFails = false →
        env.oracle.logAppendFails = false →
        persistEffOf env (resolveFields env) ∈ (handleRevoke env).trace ∧
          notifyEffOf env (resolveFields env) ∈ (handleRevoke env).trace) := by
  constructor
  · intro env hgp
    rw [handleRevoke_processed env hgp]
  · intro env hgp h1 h2 h3
    rw [handleRevoke_processed env hgp]
    obtain ⟨hp, hn⟩ := revokeBody_attempts env h1 h2 h3
    exact ⟨List.mem_append_left _ hp, List.mem_append_left _ hn⟩

theorem c7_exceptions_contained_witness :
    ((handleRevoke envLogFail).trace = (revokeBody envLogFail).trace ++
      (if (revokeBody envLogFail).thrown then [Eff.fallbackNotify] else []))
    ∧ persistEffOf envNotifyFail (resolveFields envNotifyFail)
        ∈ (handleRevoke envNotifyFail).trace :=
  ⟨c7_exceptions_contained.1 envLogFail (by decide),
    (c7_exceptions_contained.2 envNotifyFail (by decide) rfl rfl rfl).1⟩

/-- C7 counterexample: the log append is an external side-effect that is
not individually guarded — when it fails, the handler jumps to the
fallback notification and the persistence attempt never happens,
refuting the claim that a failure of one external side-effect cannot
prevent the other guarded side-effects from being attempted. -/
theorem c7_counterexample_log_failure_blocks_persist :
    Eff.fallbackNotify ∈ (handleRevoke envLogFail).trace ∧
      (∀ e ∈ (handleRevoke envLogFail).trace, isPersistEff e = false) := by
  decide

theorem revokeBody_reaped (env : RevokeEnv) (m : MediaSlot)
    (htr : mapGet (resolveFields env).msgId env.tracker =
      some { media := some m, transcript := none })
    (hfs : m.filePath ∉ env.fs)
    (hsaved : ("media/saved/" ++ m.filename) ∉ env.fs) :
    revokeBody env =
      (if env.oracle.logAppendFails then
        { initialBState env with
            trace := [.clearTimer m.timerId], thrown := true }
      else
        { initialBState env with
            trace := [.clearTimer m.timerId,
              .appendLog (deletedLogEntry (resolveFields env) ""),
              persistEffOf env (resolveFields env),
              notifyEffOf env (resolveFields env)]
            record := some (mkDeletedRecord env (resolveFields env))
            tracker := mapDelete (resolveFields env).msgId env.tracker
            cache := mapDelete (resolveFields env).msgId env.cache }) := by
  have h1 : promoteMediaStage env (resolveFields env) (initialBState env) =
      emit (.clearTimer m.timerId) (initialBState env) := by
    unfold promoteMediaStage
    rw [htr]
    dsimp only
    split
    · rename_i hmem
      exact absurd hmem hfs
    · rfl
  have h2 : ∀ s, promoteTranscriptStage env (resolveFields env) s = s := by
    intro s
    unfold promoteTranscriptStage
    rw [htr]
  have h3 : ∀ s, textOnlyFallbackStage env (resolveFields env) s = s := by
    intro s
    unfold textOnlyFallbackStage
    rw [htr]
  have h7 : ∀ s : BState, s.fs = env.fs →
      telegramMediaStage env (resolveFields env) s = s := by
    intro s hsfs
    unfold telegramMediaStage
    rw [htr]
    dsimp only
    rw [hsfs]
    rw [if_neg hsaved]
    rw [if_neg (fun hc => hfs hc.1)]
  simp only [revokeBody]
  rw [guardT_not_thrown (rfl : (initialBState env).thrown = false), h1,
    guardT_of_id h2, guardT_of_id h3]
  by_cases hlog : env.oracle.logAppendFails
  · have h4 : guardT (logAppendStage env (resolveFields env))
        (emit (.clearTimer m.timerId) (initialBState env)) =
        { initialBState env with
            trace := [.clearTimer m.timerId], thrown := true } := by
      rw [guardT_not_thrown rfl]
      unfold logAppendStage
      rw [if_pos hlog]
      rfl
    rw [h4, guardT_thrown_skip rfl, guardT_thrown_skip rfl,
      guardT_thrown_skip rfl, guardT_thrown_skip rfl, if_pos hlog]
  · have h4 : guardT (logAppendStage env (resolveFields env))
        (emit (.clearTimer m.timerId) (initialBState env)) =
        emit (.appendLog (deletedLogEntry (resolveFields env) ""))
          (emit (.clearTimer m.timerId) (initialBState env)) := by
      rw [guardT_not_thrown rfl]
      unfold logAppendStage
      rw [if_neg hlog]
      rfl
    rw [h4, if_neg hlog]
    rw [guardT_not_thrown (rfl :
      (emit (.appendLog (deletedLogEntry (resolveFields env) ""))
        (emit (.clearTimer m.timerId) (initialBState env))).thrown = false)]
    rw [guardT_not_thrown (rfl : (persistStage env (resolveFields env)
      (emit (.appendLog (deletedLogEntry (resolveFields env) ""))
        (emit (.clearTimer m.timerId) (initialBState env)))).thrown = false)]
    rw [guardT_not_thrown (rfl : (notifyStage env (resolveFields env)
      (persistStage env (resolveFields env)
        (emit (.appendLog (deletedLogEntry (resolveFields env) ""))
          (emit (.clearTimer m.timerId) (initialBState env))))).thrown
        = false)]
    rw [h7 (notifyStage env (resolveFields env)
      (persistStage env (resolveFields env)
        (emit (.appendLog (deletedLogEntry (resolveFields env) ""))
          (emit (.clearTimer m.timerId) (initialBState env))))) rfl]
    rw [guardT_not_thrown (rfl : (notifyStage env (resolveFields env)
      (persistStage env (resolveFields env)
        (emit (.appendLog (deletedLogEntry (resolveFields env) ""))
          (emit (.clearTimer m.timerId) (initialBState env))))).thrown
        = false)]
    unfold cleanupStage
    rw [htr]
    rfl

/-- C5 (amended): promotion is idempotent-safe.  After a successful
promotion the tracker and cache entries for the id are gone, so a second
promotion finds both artifact slots absent, performs no artifact file
operation, produces no media reference, and persists no media filename;
when the media slot's temp file no longer exists, promotion performs no
rename for it, produces no media reference, and does not fail — but the
persisted record still carries the media filename copied from the
tracker entry rather than reporting the slot as absent. -/
theorem c5_promotion_idempotent_safe :
    (∀ env : RevokeEnv, gatesPass env → (revokeBody env).thrown = false →
      mapGet (resolveFields env).msgId (handleRevoke env).tracker = none ∧
        mapGet (resolveFields env).msgId (handleRevoke env).cache = none) ∧
      (∀ env : RevokeEnv,
        mapGet (resolveFields env).msgId env.tracker = none →
        mapGet (resolveFields env).msgId env.cache = none →
        (∀ e ∈ (handleRevoke env).trace, isArtifactFileOp e = false) ∧
          (revokeBody env).mediaRef = "" ∧
          (∀ rc, (revokeBody env).record = some rc →
            rc.mediaFilename = none)) ∧
      (∀ env : RevokeEnv, ∀ m : MediaSlot,
        mapGet (resolveFields env).msgId env.tracker =
          some { media := some m, transcript := none } →
        m.filePath ∉ env.fs → ("media/saved/" ++ m.filename) ∉ env.fs →
        (∀ dst, Eff.renameFile m.filePath dst ∉ (revokeBody env).trace) ∧
          (revokeBody env).thrown = env.oracle.logAppendFails ∧
          (revokeBody env).mediaRef = "" ∧
          (∀ rc, (revokeBody env).record = some rc →
            rc.mediaFilename = some m.filename)) := by
  refine ⟨?_, ?_, ?_⟩
  · intro env hgp ht
    rw [handleRevoke_processed env hgp]
    exact revokeBody_clears env ht
  · intro env h1 h2
    refine ⟨?_, ?_, ?_⟩
    · by_cases hgr : (env.now : Int) - (env.readyTimestamp : Int)
          < (STARTUP_GRACE_MS : Int)
      · rw [handleRevoke_grace_skip env hgr]
        intro e he
        cases he
      · by_cases hdup : (expireRevokes env.now env.processedRevokes).any
            (fun x => x.1 = env.afterId) = true
        · rw [handleRevoke_dedup_skip env hgr hdup]
          intro e he
          cases he
        · have hdupf : (expireRevokes env.now env.processedRevokes).any
              (fun x => x.1 = env.afterId) = false := by
            cases hb : (expireRevokes env.now env.processedRevokes).any
              (fun x => x.1 = env.afterId)
            · rfl
            · exact absurd hb hdup
          have hgp : gatesPass env := ⟨hgr, hdupf⟩
          rw [handleRevoke_processed env hgp, revokeBody_miss env h1 h2]
          rcases hlog : env.oracle.logAppendFails <;>
            simp [hlog, isArtifactFileOp, persistEffOf, notifyEffOf,
              initialBState]
    · rw [revokeBody_miss env h1 h2]
      rcases hlog : env.oracle.logAppendFails <;>
        simp [hlog, initialBState]
    · rw [revokeBody_miss env h1 h2]
      rcases hlog : env.oracle.logAppendFails <;>
        simp [hlog, mkDeletedRecord, h1, initialBState]
  · intro env m htr hfs hsaved
    rw [revokeBody_reaped env m htr hfs hsaved]
    rcases hlog : env.oracle.logAppendFails <;>
      simp [hlog, mkDeletedRecord, htr, persistEffOf, notifyEffOf,
        initialBState]

theorem c5_promotion_idempotent_safe_witness :
    (mapGet (resolveFields envReaped).msgId
        (handleRevoke envReaped).tracker = none ∧
      mapGet (resolveFields envReaped).msgId
        (handleRevoke envReaped).cache = none) ∧
      (revokeBody envEmptyMiss).mediaRef = "" ∧
      (mkDeletedRecord envReaped (resolveFields envReaped)).mediaFilename =
        some mSlotA.filename :=
  ⟨c5_promotion_idempotent_safe.1 envReaped (by decide) (by decide),
    (c5_promotion_idempotent_safe.2.1 envEmptyMiss (by decide)
      (by decide)).2.1,
    (c5_promotion_idempotent_safe.2.2 envReaped mSlotA (by decide)
        (by decide) (by decide)).2.2.2
      (mkDeletedRecord envReaped (resolveFields envReaped)) (by decide)⟩

/-- C5 counterexample: with the tracked media temp file already gone, the
promotion produces no media reference (the slot is treated as absent in
the notification), yet the persisted DeletedRecord still carries the
media filename from the tracker entry — refuting the claim that the
record then contains no media filename. -/
theorem c5_counterexample_reaped_filename_persisted :
    (revokeBody envReaped).mediaRef = "" ∧
      ((revokeBody envReaped).record.map DeletedRecord.mediaFilename) =
        some (some "1_x.jpg") := by
  decide

theorem handleMessage_viewOnce_eval (env : MsgEnv) (dl : MediaDownload)
    (hv : env.isViewOnce = true) (hm : env.hasMedia = true)
    (hd : env.download = some dl)
    (hsize : ¬ MAX_MEDIA_SIZE_MB * 1024 * 1024 < dl.sizeBytes)
    (hw : env.msgFileWriteFails = false) :
    handleMessage env =
      { trace := [.writeTempFile ("media/temp/" ++ tempMediaFilename env dl),
          .copyFile ("media/temp/" ++ tempMediaFilename env dl)
            ("media/saved/" ++ tempMediaFilename env dl),
          .notify ("View-Once from " ++ msgSenderName env)
            ("Where: " ++ chatLocationOf env.chat.isGroup env.chat.name ++
              "\nWho: " ++ msgSenderName env ++ " (" ++ env.contact.number ++
              ")\nMessage: " ++
              (if messageBodyOf env.body = "" then "[media]"
                else messageBodyOf env.body)) true] ++
          (if env.readViewOnceFails then [] else
            [.sendMedia (tempMediaFilename env dl)]) ++
          [.appendLog (msgLogEntry
              (chatLocationOf env.chat.isGroup env.chat.name)
              (msgSenderName env) env.contact.number
              (messageBodyOf env.body) (mediaRefOf env)),
            .writeTempFile ("media/temp/" ++
              msgTxtFilename env (msgSenderName env))]
        fs := ("media/temp/" ++ msgTxtFilename env (msgSenderName env)) ::
          ("media/saved/" ++ tempMediaFilename env dl) ::
          ("media/temp/" ++ tempMediaFilename env dl) :: env.fs
        tracker := mapSet env.idSerialized
          { media := some (mediaSlotOf env dl)
            transcript := some (transcriptSlotOf env (msgSenderName env)) }
          (attachMediaSlot env.idSerialized (mediaSlotOf env dl) env.tracker)
        cache := cacheMessage env.now env.idSerialized
          { body := messageBodyOf env.body
            senderName := msgSenderName env
            senderNumber := env.contact.number
            chatLocation := chatLocationOf env.chat.isGroup env.chat.name
            timestamp := some env.timestamp
            msgFilePath := some ("media/temp/" ++
              msgTxtFilename env (msgSenderName env))
            cachedAt := 0 } env.cache
        mediaRef := mediaRefOf env
        record := none
        thrown := false } := by
  rcases hrv : env.readViewOnceFails <;>
    simp [handleMessage, saveMediaToTempFn, viewOnceStage, transcriptStage,
      attachMediaSlot, attachTranscriptSlot, mediaRefOf, emit,
      mapGet_mapSet_self, hv, hm, hd, hw, hsize, hrv, mediaSlotOf]

/-- C8 (amended): on a view-once message carrying media, the media file
is copied — never renamed — from temporary to permanent storage, and the
tracker record is left entirely untouched by the capture: no timer is
cancelled and after the handler runs the record still holds the media
slot (with its expiry timer) alongside the transcript slot, so both
still time out normally; nothing at all is cleared from the tracker, not
even the media artifact. -/
theorem c8_view_once_copies_not_clears (env : MsgEnv) (dl : MediaDownload)
    (hv : env.isViewOnce = true) (hm : env.hasMedia = true)
    (hd : env.download = some dl)
    (hsize : ¬ MAX_MEDIA_SIZE_MB * 1024 * 1024 < dl.sizeBytes)
    (hw : env.msgFileWriteFails = false) :
    Eff.copyFile ("media/temp/" ++ tempMediaFilename env dl)
        ("media/saved/" ++ tempMediaFilename env dl)
      ∈ (handleMessage env).trace ∧
      (∀ src dst, Eff.renameFile src dst ∉ (handleMessage env).trace) ∧
      (∀ tid, Eff.clearTimer tid ∉ (handleMessage env).trace) ∧
      mapGet env.idSerialized (handleMessage env).tracker =
        some { media := some (mediaSlotOf env dl)
               transcript := some
                 (transcriptSlotOf env (msgSenderName env)) } := by
  rw [handleMessage_viewOnce_eval env dl hv hm hd hsize hw]
  refine ⟨?_, ?_, ?_, ?_⟩
  · simp
  · intro src dst
    rcases hrv : env.readViewOnceFails <;> simp [hrv]
  · intro tid
    rcases hrv : env.readViewOnceFails <;> simp [hrv]
  · exact mapGet_mapSet_self _ _ _

theorem c8_view_once_copies_not_clears_witness :
    Eff.copyFile ("media/temp/" ++ tempMediaFilename msgEnvA dlA)
        ("media/saved/" ++ tempMediaFilename msgEnvA dlA)
      ∈ (handleMessage msgEnvA).trace ∧
      Eff.renameFile "a" "b" ∉ (handleMessage msgEnvA).trace ∧
      Eff.clearTimer 3 ∉ (handleMessage msgEnvA).trace ∧
      mapGet msgEnvA.idSerialized (handleMessage msgEnvA).tracker =
        some { media := some (mediaSlotOf msgEnvA dlA)
               transcript := some
                 (transcriptSlotOf msgEnvA (msgSenderName msgEnvA)) } :=
  ⟨(c8_view_once_copies_not_clears msgEnvA dlA rfl rfl rfl (by decide)
      rfl).1,
    (c8_view_once_copies_not_clears msgEnvA dlA rfl rfl rfl (by decide)
      rfl).2.1 "a" "b",
    (c8_view_once_copies_not_clears msgEnvA dlA rfl rfl rfl (by decide)
      rfl).2.2.1 3,
    (c8_view_once_copies_not_clears msgEnvA dlA rfl rfl rfl (by decide)
      rfl).2.2.2⟩

/-- C8 counterexample: after the view-once capture the media artifact is
still in the tracker record — the capture clears nothing — refuting the
claim that the operation clears the media artifact from the record. -/
theorem c8_counterexample_media_slot_not_cleared :
    ((mapGet "m2" (handleMessage msgEnvA).tracker).map Tracked.media) =
      some (some (mediaSlotOf msgEnvA dlA)) := by
  decide

end DeleteMsg
